import Mathlib

/-!
# Verification of sugar-ring analysis (clipper-glyco.cpp)

Shallow embedding, in Lean 4, of the parts of `src/clipper-glyco.cpp`
(class `MSugar`) needed to settle the frozen claims: the diagnostic-flag
computation of the constructor, the conformation classifiers, the bond
oracle, the ring-search neighbour enumeration, the handedness decision,
the alternate-conformation resolution and the Cremer-Pople projection.

Conventions used throughout:
* `clipper::ftype` (double) is embedded as `ℚ` where only comparisons and
  field arithmetic occur, and as `ℝ` where transcendental functions
  (`sqrt`, `sin`, `cos`, `acos`) are involved.
* `clipper::String` is `String`.  Clipper stores atom names and element
  symbols padded with blanks and the code always compares them through
  `.trim()`; the embedding stores every such string already trimmed, so
  the `.trim()` calls of the source are the identity and are omitted.
* Euclidean distances are always compared against positive constants, so
  a comparison `lo < d ∧ d < hi` on a distance `d = sqrt s` is embedded
  as `lo^2 < s ∧ s < hi^2` on the (rational) squared distance `s`; this
  keeps the definitions executable and is equivalent since both sides of
  each comparison are nonnegative.
-/

/-- 3-vector of rationals; embeds `clipper::Coord_orth` for the
distance-window computations. -/
structure Vec3Q where
  x : ℚ
  y : ℚ
  z : ℚ
deriving DecidableEq, Repr

/-- Squared Euclidean distance between two coordinates.  The source
computes `clipper::Coord_orth::length`, i.e. the square root of this;
see the header comment for why the squared form is used. -/
def dist2 (p q : Vec3Q) : ℚ :=
  (p.x - q.x) ^ 2 + (p.y - q.y) ^ 2 + (p.z - q.z) ^ 2

/-- Embeds `clipper::MAtom` with the fields the analysed code touches.
In clipper the full identifier (`id`) carries the alternate-conformation
suffix (e.g. `"C1  :A"`), while `name` is the altconf-independent part
used by `MM::ANY` lookups; `element` is stored trimmed-or-padded, the
code always compares `element().trim()`. -/
structure MAtom where
  id : String
  name : String
  element : String
  pos : Vec3Q
  occupancy : ℚ
deriving DecidableEq, Repr

instance : Inhabited MAtom := ⟨⟨"", "", "", ⟨0, 0, 0⟩, 0⟩⟩

/-- `MSugar::get_altconf` (clipper-glyco.cpp:1400-1405): the alternate
conformation code is character 5 of the full id when the id is longer
than 5 characters, else a blank. -/
def get_altconf (ma : MAtom) : Char :=
  if ma.id.length > 5 then ma.id.toList.getD 5 ' ' else ' '

/-- `MSugar::is_part_of_ring` (clipper-glyco.cpp:1307-1313): an atom is
part of the ring iff its trimmed name equals the trimmed name of some
ring atom. -/
def is_part_of_ring (ma : MAtom) (ring_atoms : List MAtom) : Bool :=
  ring_atoms.any (fun r => r.name == ma.name)

/-! ## Sanity/diagnostics engine (constructor, clipper-glyco.cpp:204-252) -/

/-- The anomer diagnostic (clipper-glyco.cpp:213-216): the flag is set
exactly when (computed anomer is `"alpha"` and the reference code is not
`"B"`) or (computed anomer is `"beta"` and the reference code is not
`"A"`). -/
def sugar_diag_anomer_calc (sugar_anomer db_anomer : String) : Bool :=
  if (sugar_anomer = "alpha" ∧ db_anomer ≠ "B")
     ∨ (sugar_anomer = "beta" ∧ db_anomer ≠ "A") then true else false

/-- The anomer-match pairing as the spec's words state it (claim C1):
the flag would be true exactly when computed `"alpha"` pairs with
reference `"B"`, or computed `"beta"` pairs with reference `"A"`.
This definition follows the SPEC, for comparison with
`sugar_diag_anomer_calc`, which follows the source. -/
def spec_anomer_match (sugar_anomer db_anomer : String) : Bool :=
  if (sugar_anomer = "alpha" ∧ db_anomer = "B")
     ∨ (sugar_anomer = "beta" ∧ db_anomer = "A") then true else false

/-- The five diagnostic flags of a sugar plus the aggregate. -/
structure DiagFlags where
  ring : Bool
  chirality : Bool
  anomer : Bool
  bonds_rmsd : Bool
  angles_rmsd : Bool
  sane : Bool
deriving DecidableEq, Repr

/-- The found-in-database diagnostic block of the constructor
(clipper-glyco.cpp:218-244): the bond-RMSD flag (ring size 5: rmsd
< 0.040, else rmsd < 0.035), the angle-RMSD flag (ring size 5:
4.0 < rmsd < 7.5, else rmsd < 4.0), and the aggregate `sugar_sane`,
which was initialised `false` at line 195 and is set at line 244 iff
all five diagnostics hold.  The ring, chirality and anomer flags are
computed earlier in the same block and are taken here as inputs. -/
def sugar_diagnostics (ringSize : Nat) (bond_rmsd angle_rmsd : ℚ)
    (diag_ring diag_chirality diag_anomer : Bool) : DiagFlags :=
  let bonds : Bool :=
    if ringSize = 5 then
      (if bond_rmsd < 0.040 then true else false)
    else
      (if bond_rmsd < 0.035 then true else false)
  let angles : Bool :=
    if ringSize = 5 then
      (if 4.0 < angle_rmsd ∧ angle_rmsd < 7.5 then true else false)
    else
      (if angle_rmsd < 4.0 then true else false)
  let sane : Bool :=
    if angles = true ∧ bonds = true ∧ diag_anomer = true
       ∧ diag_chirality = true ∧ diag_ring = true then true else false
  ⟨diag_ring, diag_chirality, diag_anomer, bonds, angles, sane⟩

/-! ## Handedness decision (clipper-glyco.cpp:531-532 and 772-773) -/

/-- The pyranose handedness decision (clipper-glyco.cpp:531-532), given
the chosen substituent of the ring-closing carbon, the ring atoms, and
the two signed displacements along the mean-plane normal. -/
def handedness_pyranose (nz6_substituent : MAtom) (ring_atoms : List MAtom)
    (z6 z6_substituent : ℚ) : String :=
  if is_part_of_ring nz6_substituent ring_atoms = true
     ∨ nz6_substituent.name = "XXX" then "N"
  else if z6 - z6_substituent < 0 then "D"
  else "L"

/-- The furanose handedness decision (clipper-glyco.cpp:772-773);
textually the same rule with the ring-closing carbon at position 4. -/
def handedness_furanose (nz5_substituent : MAtom) (ring_atoms : List MAtom)
    (z5 z5_substituent : ℚ) : String :=
  if is_part_of_ring nz5_substituent ring_atoms = true
     ∨ nz5_substituent.name = "XXX" then "N"
  else if z5 - z5_substituent < 0 then "D"
  else "L"

/-! ## Claim C1: the anomer-match flag -/

/-- Claim C1 counterexample.  The claim states the flag is true exactly
when computed `"alpha"` pairs with reference `"B"` and computed `"beta"`
with reference `"A"`, any other combination giving false.  At the
concrete input (computed `"alpha"`, reference `"A"`) the code sets the
flag true while the claimed pairing says false. -/
theorem anomer_flag_claim_counterexample :
    sugar_diag_anomer_calc "alpha" "A" = true
      ∧ spec_anomer_match "alpha" "A" = false := by
  constructor <;> rfl

/-- Claim C1 (amended): the anomer diagnostic flag is true exactly when
the computed anomer is `"alpha"` with reference code other than `"B"`,
or `"beta"` with reference code other than `"A"`; hence on the reference
codes `"A"`/`"B"` the flag pairs alpha with `"A"` and beta with `"B"`,
and a computed anomer that is neither `"alpha"` nor `"beta"` always
gives false. -/
theorem anomer_flag_characterisation :
    (∀ a r : String, sugar_diag_anomer_calc a r = true
        ↔ ((a = "alpha" ∧ r ≠ "B") ∨ (a = "beta" ∧ r ≠ "A")))
    ∧ sugar_diag_anomer_calc "alpha" "A" = true
    ∧ sugar_diag_anomer_calc "alpha" "B" = false
    ∧ sugar_diag_anomer_calc "beta" "B" = true
    ∧ sugar_diag_anomer_calc "beta" "A" = false
    ∧ (∀ r : String, sugar_diag_anomer_calc "gamma" r = false) := by
  refine ⟨?_, rfl, rfl, rfl, rfl, ?_⟩
  · intro a r
    unfold sugar_diag_anomer_calc
    split_ifs with h
    · simpa using h
    · simpa using h
  · intro r
    unfold sugar_diag_anomer_calc
    split_ifs with h
    · rcases h with ⟨h1, _⟩ | ⟨h1, _⟩ <;> simp at h1
    · rfl

/-! ## Claim C6: the handedness decision -/

/-- Claim C6: for both ring sizes, handedness is `"N"` exactly when the
chosen substituent of the ring-closing carbon is the not-found sentinel
`"XXX"` or is itself part of the ring; otherwise it is `"D"` exactly
when the displacement difference is negative and `"L"` otherwise. -/
theorem handedness_decision_correct :
    ∀ (s : MAtom) (ring_atoms : List MAtom) (zc zs : ℚ),
      (handedness_pyranose s ring_atoms zc zs = "N"
        ↔ (is_part_of_ring s ring_atoms = true ∨ s.name = "XXX"))
      ∧ (handedness_pyranose s ring_atoms zc zs = "D"
        ↔ (¬(is_part_of_ring s ring_atoms = true ∨ s.name = "XXX")
            ∧ zc - zs < 0))
      ∧ (handedness_pyranose s ring_atoms zc zs = "L"
        ↔ (¬(is_part_of_ring s ring_atoms = true ∨ s.name = "XXX")
            ∧ ¬(zc - zs < 0)))
      ∧ handedness_furanose s ring_atoms zc zs
          = handedness_pyranose s ring_atoms zc zs := by
  intro s ring_atoms zc zs
  refine ⟨?_, ?_, ?_, rfl⟩ <;>
    · simp only [handedness_pyranose]
      split_ifs <;> simp_all

/-! ## Claim C7: RMSD flags and the aggregate sanity flag -/

/-- Claim C7: for a database-recognised sugar with a 5- or 6-membered
ring, the bond-RMSD flag is true iff the bond RMSD is below 0.040
(5-ring) resp. 0.035 (6-ring); the angle-RMSD flag is true iff the
angle RMSD lies strictly between 4.0 and 7.5 (5-ring) resp. below 4.0
(6-ring); and the aggregate sane flag is true iff all five diagnostics
are true. -/
theorem diagnostics_thresholds_and_sane (ringSize : Nat)
    (b a : ℚ) (dr dc da : Bool) (h : ringSize = 5 ∨ ringSize = 6) :
    ((sugar_diagnostics ringSize b a dr dc da).bonds_rmsd = true
      ↔ (if ringSize = 5 then b < 0.040 else b < 0.035))
    ∧ ((sugar_diagnostics ringSize b a dr dc da).angles_rmsd = true
      ↔ (if ringSize = 5 then 4.0 < a ∧ a < 7.5 else a < 4.0))
    ∧ ((sugar_diagnostics ringSize b a dr dc da).sane = true
      ↔ ((sugar_diagnostics ringSize b a dr dc da).ring = true
          ∧ (sugar_diagnostics ringSize b a dr dc da).chirality = true
          ∧ (sugar_diagnostics ringSize b a dr dc da).anomer = true
          ∧ (sugar_diagnostics ringSize b a dr dc da).bonds_rmsd = true
          ∧ (sugar_diagnostics ringSize b a dr dc da).angles_rmsd = true)) := by
  rcases h with h | h <;> subst h
  all_goals
    · unfold sugar_diagnostics
      refine ⟨?_, ?_, ?_⟩ <;> split_ifs <;> (simp_all; try tauto)

/-- Claim C7 witness: the spec's worked example.  A pyranose (6-ring)
with bond RMSD 0.03, angle RMSD 3.0 and the ring, chirality and anomer
diagnostics all true has both threshold flags true and is sane. -/
theorem diagnostics_thresholds_witness :
    ((sugar_diagnostics 6 0.03 3.0 true true true).bonds_rmsd = true
      ↔ (if (6 : Nat) = 5 then (0.03 : ℚ) < 0.040 else (0.03 : ℚ) < 0.035))
    ∧ ((sugar_diagnostics 6 0.03 3.0 true true true).angles_rmsd = true
      ↔ (if (6 : Nat) = 5 then (4.0 : ℚ) < 3.0 ∧ (3.0 : ℚ) < 7.5
          else (3.0 : ℚ) < 4.0))
    ∧ ((sugar_diagnostics 6 0.03 3.0 true true true).sane = true
      ↔ ((sugar_diagnostics 6 0.03 3.0 true true true).ring = true
          ∧ (sugar_diagnostics 6 0.03 3.0 true true true).chirality = true
          ∧ (sugar_diagnostics 6 0.03 3.0 true true true).anomer = true
          ∧ (sugar_diagnostics 6 0.03 3.0 true true true).bonds_rmsd = true
          ∧ (sugar_diagnostics 6 0.03 3.0 true true true).angles_rmsd = true)) :=
  diagnostics_thresholds_and_sane 6 0.03 3.0 true true true (Or.inr rfl)

/-! ## The bond oracle (clipper-glyco.cpp:1540-1587) -/

/-- `MSugar::bonded(const MAtom&, const MAtom&)`
(clipper-glyco.cpp:1540-1587).  Per-element-pair distance windows on the
trimmed element symbols; comparisons are on the squared distance (see
header comment).  When the first element is C/N/O but the second matches
no dedicated window, control falls off the inner chain to the final
`return false`; only when the FIRST element is none of C/N/O does the
"unknown bond" window 1.20-1.80 apply. -/
def bonded (ma_one ma_two : MAtom) : Bool :=
  let d2 := dist2 ma_one.pos ma_two.pos
  if ma_one.element = "C" then
    if ma_two.element = "C" then
      (if (1.18 : ℚ) ^ 2 < d2 ∧ d2 < (1.60 : ℚ) ^ 2 then true else false)
    else if ma_two.element = "N" then
      (if (1.24 : ℚ) ^ 2 < d2 ∧ d2 < (1.52 : ℚ) ^ 2 then true else false)
    else if ma_two.element = "O" then
      (if (1.16 : ℚ) ^ 2 < d2 ∧ d2 < (1.50 : ℚ) ^ 2 then true else false)
    else if ma_two.element = "H" then
      (if (0.96 : ℚ) ^ 2 < d2 ∧ d2 < (1.14 : ℚ) ^ 2 then true else false)
    else false
  else if ma_one.element = "N" then
    if ma_two.element = "C" then
      (if (1.24 : ℚ) ^ 2 < d2 ∧ d2 < (1.52 : ℚ) ^ 2 then true else false)
    else if ma_two.element = "H" then
      (if (0.90 : ℚ) ^ 2 < d2 ∧ d2 < (1.10 : ℚ) ^ 2 then true else false)
    else false
  else if ma_one.element = "O" then
    if ma_two.element = "C" then
      (if (1.16 : ℚ) ^ 2 < d2 ∧ d2 < (1.50 : ℚ) ^ 2 then true else false)
    else if ma_two.element = "H" then
      (if (0.88 : ℚ) ^ 2 < d2 ∧ d2 < (1.04 : ℚ) ^ 2 then true else false)
    else false
  else if (1.2 : ℚ) ^ 2 < d2 ∧ d2 < (1.8 : ℚ) ^ 2 then true
  else false

theorem dist2_comm (p q : Vec3Q) : dist2 p q = dist2 q p := by
  unfold dist2; ring

/-! ## Claim C4: symmetry of the bond oracle -/

/-- Claim C4 counterexample.  The claim asserts `bonded` is symmetric
for every pair of atoms.  For a carbon at the origin and a hydrogen at
distance 1.00 the C-first order uses the dedicated C-H window
0.96-1.14 (true), while the H-first order falls to the unknown-bond
window 1.20-1.80 (false). -/
theorem bonded_symmetry_counterexample :
    bonded ⟨"C1", "C1", "C", ⟨0, 0, 0⟩, 1⟩ ⟨"H1", "H1", "H", ⟨1, 0, 0⟩, 1⟩ = true
    ∧ bonded ⟨"H1", "H1", "H", ⟨1, 0, 0⟩, 1⟩ ⟨"C1", "C1", "C", ⟨0, 0, 0⟩, 1⟩ = false := by
  constructor <;> (norm_num [bonded, dist2]; try decide)

/-- Claim C4 (amended): `bonded` is symmetric whenever both trimmed
elements are among C, N, O, and also whenever both are outside
{C, N, O} (in the latter case both orders use the unknown-bond window
1.20-1.80, so the fallback is order-independent there).  Symmetry can
fail for mixed pairs, where only the C/N/O-first order sees a dedicated
window or the bare `false` fall-through. -/
theorem bonded_symmetric_on_matching_classes :
    ∀ a b : MAtom,
      ((a.element = "C" ∨ a.element = "N" ∨ a.element = "O")
        ∧ (b.element = "C" ∨ b.element = "N" ∨ b.element = "O"))
      ∨ ((a.element ≠ "C" ∧ a.element ≠ "N" ∧ a.element ≠ "O")
        ∧ (b.element ≠ "C" ∧ b.element ≠ "N" ∧ b.element ≠ "O")) →
      bonded a b = bonded b a := by
  intro a b h
  have hd : dist2 a.pos b.pos = dist2 b.pos a.pos := dist2_comm _ _
  rcases h with ⟨ha, hb⟩ | ⟨⟨ha1, ha2, ha3⟩, ⟨hb1, hb2, hb3⟩⟩
  · rcases ha with ha | ha | ha <;> rcases hb with hb | hb | hb <;>
      simp [bonded, ha, hb, hd]
  · simp [bonded, ha1, ha2, ha3, hb1, hb2, hb3, hd]

/-- Claim C4 witness: two carbons 1.40 apart are in the C-C window in
both argument orders. -/
theorem bonded_symmetric_witness :
    bonded ⟨"C1", "C1", "C", ⟨0, 0, 0⟩, 1⟩ ⟨"C2", "C2", "C", ⟨1.4, 0, 0⟩, 1⟩
      = bonded ⟨"C2", "C2", "C", ⟨1.4, 0, 0⟩, 1⟩ ⟨"C1", "C1", "C", ⟨0, 0, 0⟩, 1⟩ :=
  bonded_symmetric_on_matching_classes
    ⟨"C1", "C1", "C", ⟨0, 0, 0⟩, 1⟩ ⟨"C2", "C2", "C", ⟨1.4, 0, 0⟩, 1⟩
    (Or.inl ⟨Or.inl rfl, Or.inl rfl⟩)

/-! ## Ring-search neighbour enumeration (clipper-glyco.cpp:1046-1075) -/

/-- `MSugar::lookup_visited` (clipper-glyco.cpp:1071-1075): an arc has
been visited iff the unordered pair of trimmed names appears in the
history, in either orientation. -/
def lookup_visited (va : List (MAtom × MAtom)) (pairs : MAtom × MAtom) : Bool :=
  va.any (fun v =>
    (pairs.1.name == v.1.name && pairs.2.name == v.2.name)
    || (pairs.1.name == v.2.name && pairs.2.name == v.1.name))

/-- `MSugar::findBonded` (clipper-glyco.cpp:1046-1063): scan the
monomer's atom list; an atom is a bonded neighbour of `ma` iff its
distance to `ma` lies strictly between 0.5 and 1.61 (any element pair),
the arc is not already visited, and the two altconf codes agree. -/
def findBonded (atom_list : List MAtom) (ma : MAtom)
    (background : List (MAtom × MAtom)) : List MAtom :=
  atom_list.filter (fun mi =>
    (decide ((0.5 : ℚ) ^ 2 < dist2 mi.pos ma.pos
              ∧ dist2 mi.pos ma.pos < (1.61 : ℚ) ^ 2))
    && !(lookup_visited background (ma, mi))
    && (get_altconf ma == get_altconf mi))

/-! ## Claim C5: ring search vs bond oracle -/

/-- Claim C5 counterexample.  The claim asserts `findBonded` includes a
same-altconf atom exactly when the bond oracle's per-element windows
classify the pair as bonded.  Two carbons 1.00 apart are enumerated by
`findBonded` (0.5 < 1.00 < 1.61) yet `bonded` rejects them (the C-C
window starts at 1.18). -/
theorem findBonded_oracle_counterexample :
    (⟨"C2", "C2", "C", ⟨1, 0, 0⟩, 1⟩ : MAtom)
        ∈ findBonded [⟨"C1", "C1", "C", ⟨0, 0, 0⟩, 1⟩, ⟨"C2", "C2", "C", ⟨1, 0, 0⟩, 1⟩]
            ⟨"C1", "C1", "C", ⟨0, 0, 0⟩, 1⟩ []
    ∧ bonded ⟨"C1", "C1", "C", ⟨0, 0, 0⟩, 1⟩ ⟨"C2", "C2", "C", ⟨1, 0, 0⟩, 1⟩ = false := by
  constructor
  · simp only [findBonded, List.mem_filter, List.mem_cons]
    norm_num [dist2, get_altconf, lookup_visited]
  · norm_num [bonded, dist2]

/-- Claim C5 (amended): during the cycle search, `findBonded` classifies
an atom of the monomer as a bonded neighbour of `ma` exactly when the
squared distance lies strictly between 0.5² and 1.61² (one flat window,
independent of the element pair), the arc is unvisited and the altconf
codes agree; this criterion is not extensionally equal to the bond
oracle's per-element windows (there are same-altconf unvisited pairs,
such as two carbons 1.00 apart, inside the flat window but rejected by
the oracle). -/
theorem findBonded_membership_characterisation :
    (∀ (atom_list : List MAtom) (ma : MAtom)
        (background : List (MAtom × MAtom)) (b : MAtom),
      b ∈ findBonded atom_list ma background
        ↔ (b ∈ atom_list
            ∧ ((0.5 : ℚ) ^ 2 < dist2 b.pos ma.pos
                ∧ dist2 b.pos ma.pos < (1.61 : ℚ) ^ 2)
            ∧ lookup_visited background (ma, b) = false
            ∧ get_altconf ma = get_altconf b))
    ∧ (∃ a b : MAtom, get_altconf a = get_altconf b
        ∧ ((0.5 : ℚ) ^ 2 < dist2 b.pos a.pos
            ∧ dist2 b.pos a.pos < (1.61 : ℚ) ^ 2)
        ∧ bonded a b = false) := by
  constructor
  · intro atom_list ma background b
    unfold findBonded
    rw [List.mem_filter]
    simp only [Bool.and_eq_true, decide_eq_true_eq, Bool.not_eq_true',
      beq_iff_eq]
    tauto
  · exact ⟨⟨"C1", "C1", "C", ⟨0, 0, 0⟩, 1⟩, ⟨"C2", "C2", "C", ⟨1, 0, 0⟩, 1⟩,
      rfl, by norm_num [dist2], by norm_num [bonded, dist2]⟩

/-! ## Database-template ring lookup (constructor, clipper-glyco.cpp:113-151) -/

/-- `MMonomer::lookup` with `clipper::MM::UNIQUE`: find the index of the
atom whose full id (altconf suffix included) matches; `none` embeds the
source's `-1`. -/
def lookup_unique (m : List MAtom) (s : String) : Option Nat :=
  m.findIdx? (fun a => a.id == s)

/-- `MMonomer::lookup` with `clipper::MM::ANY`: find the index of the
atom whose altconf-independent name matches. -/
def lookup_any (m : List MAtom) (s : String) : Option Nat :=
  m.findIdx? (fun a => a.name == s)

/-- The alternate-conformation resolution of one database ring atom
(clipper-glyco.cpp:131-146), entered when the atom found by the ANY
lookup has occupancy < 1.0 and a non-blank altconf code.  Mirrors the
source's sequence of assignments to `sugar_alternate_confcode`:
line 131 tries `name + " :A"`; on failure line 134 tries `name + " :B"`,
otherwise line 135 records `" :A"`; if both lookups failed the sugar is
marked unsupported and the constructor returns (`none` here), else
line 146 unconditionally records `" :B"`.  Returns the index used and
the final recorded code. -/
def altconf_resolution (m : List MAtom) (nm : String) (code0 : String) :
    Option Nat × String :=
  let i1 := lookup_unique m (nm ++ " :A")
  let index_atom := if i1 = none then lookup_unique m (nm ++ " :B") else i1
  let code1 := if i1 = none then code0 else " :A"
  match index_atom with
  | none => (none, code1)
  | some k => (some k, " :B")

/-- One iteration of the template ring-atom loop
(clipper-glyco.cpp:114-150): ANY-lookup of the template name; failure
marks the sugar unsupported (`none`); occupancy < 1.0 with a non-blank
altconf code triggers `altconf_resolution`; otherwise the atom is used
as found.  The state carries the indices collected so far and the
current `sugar_alternate_confcode`. -/
def process_ring_atom (m : List MAtom) (nm : String)
    (st : List Nat × String) : Option (List Nat × String) :=
  match lookup_any m nm with
  | none => none
  | some i =>
    let a := m.getD i default
    if a.occupancy < 1 then
      if get_altconf a ≠ ' ' then
        match altconf_resolution m nm st.2 with
        | (none, _) => none
        | (some k, c) => some (st.1 ++ [k], c)
      else some (st.1 ++ [i], st.2)
    else some (st.1 ++ [i], st.2)

/-- The whole template ring-atom loop with the early unsupported
return; the initial `sugar_alternate_confcode` is the blank `" "` set
at clipper-glyco.cpp:99. -/
def ring_lookup_loop (m : List MAtom) :
    List String → List Nat × String → Option (List Nat × String)
  | [], st => some st
  | nm :: rest, st =>
    match process_ring_atom m nm st with
    | none => none
    | some st' => ring_lookup_loop m rest st'

/-- Any outcome of `altconf_resolution`: either both lookups failed and
the unsupported pair `(none, code0)` is produced, or the recorded code
is `" :B"`. -/
theorem altconf_resolution_spec (m : List MAtom) (nm code0 : String) :
    altconf_resolution m nm code0 = (none, code0)
    ∨ ∃ k, altconf_resolution m nm code0 = (some k, " :B") := by
  rcases hA : lookup_unique m (nm ++ " :A") with _ | j
  · rcases hB : lookup_unique m (nm ++ " :B") with _ | j2
    · left; simp [altconf_resolution, hA, hB]
    · right; exact ⟨j2, by simp [altconf_resolution, hA, hB]⟩
  · right; exact ⟨j, by simp [altconf_resolution, hA]⟩

theorem process_ring_atom_code (m : List MAtom) (nm : String)
    (st st' : List Nat × String) (h : process_ring_atom m nm st = some st') :
    st'.2 = st.2 ∨ st'.2 = " :B" := by
  rcases hl : lookup_any m nm with _ | i
  · rw [process_ring_atom, hl] at h
    exact Option.noConfusion h
  · rcases altconf_resolution_spec m nm st.2 with hr | ⟨k, hr⟩ <;>
      rw [process_ring_atom, hl] at h <;>
      simp only [hr] at h <;>
      split_ifs at h with h1 h2 <;>
      first
        | exact Option.noConfusion h
        | (rw [Option.some_inj] at h; subst h; simp)

theorem ring_lookup_loop_code (m : List MAtom) (buffer : List String)
    (st res : List Nat × String) (h : ring_lookup_loop m buffer st = some res) :
    res.2 = st.2 ∨ res.2 = " :B" := by
  induction buffer generalizing st with
  | nil => unfold ring_lookup_loop at h; left; simp_all
  | cons nm rest ih =>
    unfold ring_lookup_loop at h
    rcases hp : process_ring_atom m nm st with _ | st' <;> rw [hp] at h
    · exact Option.noConfusion h
    · rcases ih st' h with h1 | h1
      · rcases process_ring_atom_code m nm st st' hp with h2 | h2
        · left; rw [h1, h2]
        · right; rw [h1, h2]
      · right; exact h1

/-! ## Claim C10: the final alternate-conformation code is always ":B" -/

/-- Claim C10: on the database-template path, whenever the alternate
conformation of a ring atom is successfully resolved, the recorded
`sugar_alternate_confcode` ends as `" :B"`, even when the `" :A"` lookup
succeeded and the conformation-A atom is the one used; and the loop as a
whole, started from the initial blank code, can only finish with code
`" "` or `" :B"`, never `" :A"`. -/
theorem altconf_code_always_B :
    (∀ (m : List MAtom) (nm code0 : String) (k : Nat),
      (altconf_resolution m nm code0).1 = some k →
        (altconf_resolution m nm code0).2 = " :B")
    ∧ (∀ (m : List MAtom) (nm code0 : String) (k : Nat),
      lookup_unique m (nm ++ " :A") = some k →
        altconf_resolution m nm code0 = (some k, " :B"))
    ∧ (∀ (m : List MAtom) (buffer : List String) (res : List Nat × String),
      ring_lookup_loop m buffer ([], " ") = some res →
        res.2 = " " ∨ res.2 = " :B") := by
  refine ⟨?_, ?_, ?_⟩
  · intro m nm code0 k h
    rcases altconf_resolution_spec m nm code0 with hr | ⟨k2, hr⟩
    · rw [hr] at h
      exact Option.noConfusion h
    · rw [hr]
  · intro m nm code0 k h
    simp [altconf_resolution, h]
  · intro m buffer res h
    exact ring_lookup_loop_code m buffer ([], " ") res h

/-- Claim C10 witness: a template atom `"C1"` whose ANY-lookup hits an
atom with occupancy 0.5 and altconf code `'B'`; the `" :A"` UNIQUE
lookup succeeds (index 1), the conformation-A atom is the one used, and
the recorded code is nevertheless `" :B"`; the empty template loop
finishes with the untouched blank code. -/
theorem altconf_code_always_B_witness :
    altconf_resolution
        [⟨"C1  :B", "C1", "C", ⟨0, 0, 0⟩, 0.5⟩, ⟨"C1 :A", "C1", "C", ⟨0, 0, 0⟩, 0.5⟩]
        "C1" " " = (some 1, " :B")
    ∧ (altconf_resolution
        [⟨"C1  :B", "C1", "C", ⟨0, 0, 0⟩, 0.5⟩, ⟨"C1 :A", "C1", "C", ⟨0, 0, 0⟩, 0.5⟩]
        "C1" " ").2 = " :B"
    ∧ (((" ", " :B") : String × String).1 = " " ∨ (" ", " :B").1 = " :B") := by
  have h1 : lookup_unique
      [(⟨"C1  :B", "C1", "C", ⟨0, 0, 0⟩, 0.5⟩ : MAtom), ⟨"C1 :A", "C1", "C", ⟨0, 0, 0⟩, 0.5⟩]
      ("C1" ++ " :A") = some 1 := by
    unfold lookup_unique
    rfl
  have h2 := altconf_code_always_B.2.1
      [⟨"C1  :B", "C1", "C", ⟨0, 0, 0⟩, 0.5⟩, ⟨"C1 :A", "C1", "C", ⟨0, 0, 0⟩, 0.5⟩]
      "C1" " " 1 h1
  have h3 := altconf_code_always_B.1
      [⟨"C1  :B", "C1", "C", ⟨0, 0, 0⟩, 0.5⟩, ⟨"C1 :A", "C1", "C", ⟨0, 0, 0⟩, 0.5⟩]
      "C1" " " 1 (by rw [h2])
  have h4 := altconf_code_always_B.2.2
      [⟨"C1  :B", "C1", "C", ⟨0, 0, 0⟩, 0.5⟩, ⟨"C1 :A", "C1", "C", ⟨0, 0, 0⟩, 0.5⟩]
      [] ([], " ") rfl
  exact ⟨h2, h3, h4⟩

/-! ## Ring-size dispatch and constructor epilogue
(clipper-glyco.cpp:161-195) -/

/-- Structural recursion for `clipper::String::find`: does the pattern
occur at the head of the character list? -/
def strStartsWith : List Char → List Char → Bool
  | _, [] => true
  | [], _ :: _ => false
  | c :: cs, p :: ps => c == p && strStartsWith cs ps

/-- Does the pattern occur anywhere in the character list?  Embeds
`s.find(pat) != std::string::npos`. -/
def strFindSub : List Char → List Char → Bool
  | [], p => strStartsWith [] p
  | c :: cs, p => strStartsWith (c :: cs) p || strFindSub cs p

def string_find (s pat : String) : Bool := strFindSub s.toList pat.toList

/-- The sugar fields written by the constructor paths relevant to the
ring-size check. -/
structure SugarState where
  supported : Bool
  sane : Bool
  denomination : String
  anomer : String
  handedness : String
deriving DecidableEq, Repr

/-- The ring-size dispatch of the constructor
(clipper-glyco.cpp:161-183).  A 5-ring runs the furanose Cremer-Pople
analysis and a 6-ring the pyranose one; those analyses set the anomer
and handedness fields, abstracted here as the inputs `cp_anomer` and
`cp_handedness` (their geometry is embedded separately below).  Any
other size takes the unsupported branch, which sets the sentinel
fields but — unlike the template-lookup failure branches at lines
120-126 and 137-145, which `return` — does not leave the
constructor. -/
def ring_size_dispatch (ring : List MAtom)
    (cp_anomer cp_handedness : String) (st : SugarState) : SugarState :=
  if ring.length = 5 ∨ ring.length = 6 then
    { st with anomer := cp_anomer, handedness := cp_handedness }
  else
    { supported := false, sane := false,
      denomination := "    unsupported    ", anomer := "X", handedness := "X" }

/-- The constructor epilogue (clipper-glyco.cpp:185-195), executed
right after the ring-size dispatch on every path that did not `return`:
rebuilds `sugar_denomination` as
`<anomer>-<handedness>-<aldo|keto><furanose|pyranose>` (overwriting
whatever the dispatch left there) and resets `sugar_sane` to false
ahead of the diagnostics. -/
def constructor_epilogue (ring : List MAtom) (st : SugarState) : SugarState :=
  let d0 : String :=
    if string_find (ring.getD 1 default).name "C1" then "aldo" else "keto"
  let d1 : String :=
    if ring.length = 5 then d0 ++ "furanose" else d0 ++ "pyranose"
  { st with denomination := st.anomer ++ "-" ++ st.handedness ++ "-" ++ d1,
            sane := false }

/-! ## Claim C2: rings of unsupported size do not halt the analysis -/

/-- Claim C2 evidence.  For a detected ring of size 4 the unsupported
branch fires (anomer and handedness become `"X"` and the sentinel
denomination is written), but, the branch not returning, the epilogue
still runs and overwrites the denomination with `"X-X-aldopyranose"`;
the `"    unsupported    "` sentinel does not remain, contradicting the
claim that it remains and that all further analysis halts. -/
theorem unsupported_ring_size_not_halting :
    (constructor_epilogue
        [⟨"O4", "O4", "O", ⟨0, 0, 0⟩, 1⟩, ⟨"C1", "C1", "C", ⟨0, 0, 0⟩, 1⟩,
         ⟨"C2", "C2", "C", ⟨0, 0, 0⟩, 1⟩, ⟨"C3", "C3", "C", ⟨0, 0, 0⟩, 1⟩]
        (ring_size_dispatch
          [⟨"O4", "O4", "O", ⟨0, 0, 0⟩, 1⟩, ⟨"C1", "C1", "C", ⟨0, 0, 0⟩, 1⟩,
           ⟨"C2", "C2", "C", ⟨0, 0, 0⟩, 1⟩, ⟨"C3", "C3", "C", ⟨0, 0, 0⟩, 1⟩]
          "" "" ⟨true, false, "", "", ""⟩)).denomination = "X-X-aldopyranose"
    ∧ (constructor_epilogue
        [⟨"O4", "O4", "O", ⟨0, 0, 0⟩, 1⟩, ⟨"C1", "C1", "C", ⟨0, 0, 0⟩, 1⟩,
         ⟨"C2", "C2", "C", ⟨0, 0, 0⟩, 1⟩, ⟨"C3", "C3", "C", ⟨0, 0, 0⟩, 1⟩]
        (ring_size_dispatch
          [⟨"O4", "O4", "O", ⟨0, 0, 0⟩, 1⟩, ⟨"C1", "C1", "C", ⟨0, 0, 0⟩, 1⟩,
           ⟨"C2", "C2", "C", ⟨0, 0, 0⟩, 1⟩, ⟨"C3", "C3", "C", ⟨0, 0, 0⟩, 1⟩]
          "" "" ⟨true, false, "", "", ""⟩)).denomination ≠ "    unsupported    "
    ∧ (ring_size_dispatch
          [⟨"O4", "O4", "O", ⟨0, 0, 0⟩, 1⟩, ⟨"C1", "C1", "C", ⟨0, 0, 0⟩, 1⟩,
           ⟨"C2", "C2", "C", ⟨0, 0, 0⟩, 1⟩, ⟨"C3", "C3", "C", ⟨0, 0, 0⟩, 1⟩]
          "" "" ⟨true, false, "", "", ""⟩).denomination = "    unsupported    "
    ∧ (constructor_epilogue
        [⟨"O4", "O4", "O", ⟨0, 0, 0⟩, 1⟩, ⟨"C1", "C1", "C", ⟨0, 0, 0⟩, 1⟩,
         ⟨"C2", "C2", "C", ⟨0, 0, 0⟩, 1⟩, ⟨"C3", "C3", "C", ⟨0, 0, 0⟩, 1⟩]
        (ring_size_dispatch
          [⟨"O4", "O4", "O", ⟨0, 0, 0⟩, 1⟩, ⟨"C1", "C1", "C", ⟨0, 0, 0⟩, 1⟩,
           ⟨"C2", "C2", "C", ⟨0, 0, 0⟩, 1⟩, ⟨"C3", "C3", "C", ⟨0, 0, 0⟩, 1⟩]
          "" "" ⟨true, false, "", "", ""⟩)).anomer = "X"
    ∧ (constructor_epilogue
        [⟨"O4", "O4", "O", ⟨0, 0, 0⟩, 1⟩, ⟨"C1", "C1", "C", ⟨0, 0, 0⟩, 1⟩,
         ⟨"C2", "C2", "C", ⟨0, 0, 0⟩, 1⟩, ⟨"C3", "C3", "C", ⟨0, 0, 0⟩, 1⟩]
        (ring_size_dispatch
          [⟨"O4", "O4", "O", ⟨0, 0, 0⟩, 1⟩, ⟨"C1", "C1", "C", ⟨0, 0, 0⟩, 1⟩,
           ⟨"C2", "C2", "C", ⟨0, 0, 0⟩, 1⟩, ⟨"C3", "C3", "C", ⟨0, 0, 0⟩, 1⟩]
          "" "" ⟨true, false, "", "", ""⟩)).supported = false := by
  refine ⟨rfl, ?_, rfl, rfl, rfl⟩
  intro h
  exact absurd h (by decide)

/-! ## Conformation classifiers (clipper-glyco.cpp:786-841 and 849-875) -/

/-- The conformation codes returned by the classifiers.  Modelled from
the spec: the integer enumeration (`conf_pyranose_4C1`, ...) lives in
`clipper-glyco.h`, which is not part of the sources at hand; the spec
describes them only as distinct named codes, so they are modelled as
distinct labels, with `conf_unassigned` standing for the initial
`int confCode = 0` that survives when no branch of a classifier
fires. -/
inductive ConfCode where
  | conf_unassigned
  | conf_pyranose_4C1
  | conf_pyranose_OH1
  | conf_pyranose_E1
  | conf_pyranose_2H1
  | conf_pyranose_2E
  | conf_pyranose_2H3
  | conf_pyranose_E3
  | conf_pyranose_4H3
  | conf_pyranose_4E
  | conf_pyranose_4H5
  | conf_pyranose_E5
  | conf_pyranose_OH5
  | conf_pyranose_OE
  | conf_pyranose_3S1
  | conf_pyranose_B14
  | conf_pyranose_5S1
  | conf_pyranose_25B
  | conf_pyranose_2SO
  | conf_pyranose_B3O
  | conf_pyranose_1S3
  | conf_pyranose_14B
  | conf_pyranose_1S5
  | conf_pyranose_B25
  | conf_pyranose_OS2
  | conf_pyranose_3OB
  | conf_pyranose_3H4
  | conf_pyranose_E4
  | conf_pyranose_5H4
  | conf_pyranose_5E
  | conf_pyranose_5HO
  | conf_pyranose_EO
  | conf_pyranose_1HO
  | conf_pyranose_1E
  | conf_pyranose_1H2
  | conf_pyranose_E2
  | conf_pyranose_3H2
  | conf_pyranose_3E
  | conf_pyranose_1C4
  | conf_furanose_3T2
  | conf_furanose_3EV
  | conf_furanose_3T4
  | conf_furanose_4EV
  | conf_furanose_OT4
  | conf_furanose_OEV
  | conf_furanose_OT1
  | conf_furanose_EV1
  | conf_furanose_2T1
  | conf_furanose_2EV
  | conf_furanose_2T3
  | conf_furanose_EV3
  | conf_furanose_4T3
  | conf_furanose_4TO
  | conf_furanose_EVO
  | conf_furanose_1TO
  | conf_furanose_1EV
  | conf_furanose_1T2
deriving DecidableEq, Repr

/-- `MSugar::conformationPyranose` (clipper-glyco.cpp:786-841):
`confCode` starts at 0 (`conf_unassigned`) and each branch of the
`if`/`else if` chain overwrites it; a chain that matches nothing leaves
it unassigned. -/
def conformationPyranose (phi theta : ℚ) : ConfCode :=
  if theta ≤ 22.5 then ConfCode.conf_pyranose_4C1
  else if theta > 22.5 ∧ theta ≤ 67.5 then
    (if phi > 15 ∧ phi ≤ 45 then ConfCode.conf_pyranose_OH1
     else if phi > 45 ∧ phi ≤ 75 then ConfCode.conf_pyranose_E1
     else if phi > 75 ∧ phi ≤ 105 then ConfCode.conf_pyranose_2H1
     else if phi > 105 ∧ phi ≤ 135 then ConfCode.conf_pyranose_2E
     else if phi > 135 ∧ phi ≤ 165 then ConfCode.conf_pyranose_2H3
     else if phi > 165 ∧ phi ≤ 195 then ConfCode.conf_pyranose_E3
     else if phi > 195 ∧ phi ≤ 225 then ConfCode.conf_pyranose_4H3
     else if phi > 225 ∧ phi ≤ 255 then ConfCode.conf_pyranose_4E
     else if phi > 255 ∧ phi ≤ 285 then ConfCode.conf_pyranose_4H5
     else if phi > 285 ∧ phi ≤ 315 then ConfCode.conf_pyranose_E5
     else if phi > 315 ∧ phi ≤ 345 then ConfCode.conf_pyranose_OH5
     else if phi > 345 ∨ phi ≤ 15 then ConfCode.conf_pyranose_OE
     else ConfCode.conf_unassigned)
  else if theta > 67.5 ∧ theta ≤ 112.5 then
    (if phi > 15 ∧ phi ≤ 45 then ConfCode.conf_pyranose_3S1
     else if phi > 45 ∧ phi ≤ 75 then ConfCode.conf_pyranose_B14
     else if phi > 75 ∧ phi ≤ 105 then ConfCode.conf_pyranose_5S1
     else if phi > 105 ∧ phi ≤ 135 then ConfCode.conf_pyranose_25B
     else if phi > 135 ∧ phi ≤ 165 then ConfCode.conf_pyranose_2SO
     else if phi > 165 ∧ phi ≤ 195 then ConfCode.conf_pyranose_B3O
     else if phi > 195 ∧ phi ≤ 225 then ConfCode.conf_pyranose_1S3
     else if phi > 225 ∧ phi ≤ 255 then ConfCode.conf_pyranose_14B
     else if phi > 255 ∧ phi ≤ 285 then ConfCode.conf_pyranose_1S5
     else if phi > 285 ∧ phi ≤ 315 then ConfCode.conf_pyranose_B25
     else if phi > 315 ∧ phi ≤ 345 then ConfCode.conf_pyranose_OS2
     else if phi > 345 ∨ phi ≤ 15 then ConfCode.conf_pyranose_3OB
     else ConfCode.conf_unassigned)
  else if theta > 112.5 ∧ theta ≤ 157.5 then
    (if phi > 15 ∧ phi ≤ 45 then ConfCode.conf_pyranose_3H4
     else if phi > 45 ∧ phi ≤ 75 then ConfCode.conf_pyranose_E4
     else if phi > 75 ∧ phi ≤ 105 then ConfCode.conf_pyranose_5H4
     else if phi > 105 ∧ phi ≤ 135 then ConfCode.conf_pyranose_5E
     else if phi > 135 ∧ phi ≤ 165 then ConfCode.conf_pyranose_5HO
     else if phi > 165 ∧ phi ≤ 195 then ConfCode.conf_pyranose_EO
     else if phi > 195 ∧ phi ≤ 225 then ConfCode.conf_pyranose_1HO
     else if phi > 225 ∧ phi ≤ 255 then ConfCode.conf_pyranose_1E
     else if phi > 255 ∧ phi ≤ 285 then ConfCode.conf_pyranose_1H2
     else if phi > 285 ∧ phi ≤ 315 then ConfCode.conf_pyranose_E2
     else if phi > 315 ∧ phi ≤ 345 then ConfCode.conf_pyranose_3H2
     else if phi > 345 ∨ phi ≤ 15 then ConfCode.conf_pyranose_3E
     else ConfCode.conf_unassigned)
  else if theta ≥ 157.5 then ConfCode.conf_pyranose_1C4
  else ConfCode.conf_unassigned

/-- `MSugar::conformationFuranose` (clipper-glyco.cpp:849-875): every
sector bound is strict on both sides (only the wraparound sector is
closed at neither end), so the exact bounds fall through to the
unassigned code.  `conf_furanose_4EV` and `conf_furanose_2EV` are each
reused for two sectors, exactly as in the source. -/
def conformationFuranose (theta : ℚ) : ConfCode :=
  if theta > 175.5 ∨ theta < 4.5 then ConfCode.conf_furanose_3T2
  else if theta > 4.5 ∧ theta < 13.5 then ConfCode.conf_furanose_3EV
  else if theta > 13.5 ∧ theta < 22.5 then ConfCode.conf_furanose_3T4
  else if theta > 22.5 ∧ theta < 31.5 then ConfCode.conf_furanose_4EV
  else if theta > 31.5 ∧ theta < 40.5 then ConfCode.conf_furanose_OT4
  else if theta > 40.5 ∧ theta < 49.5 then ConfCode.conf_furanose_OEV
  else if theta > 49.5 ∧ theta < 58.5 then ConfCode.conf_furanose_OT1
  else if theta > 58.5 ∧ theta < 67.5 then ConfCode.conf_furanose_EV1
  else if theta > 67.5 ∧ theta < 76.5 then ConfCode.conf_furanose_2T1
  else if theta > 76.5 ∧ theta < 85.5 then ConfCode.conf_furanose_2EV
  else if theta > 85.5 ∧ theta < 94.5 then ConfCode.conf_furanose_2T3
  else if theta > 94.5 ∧ theta < 103.5 then ConfCode.conf_furanose_EV3
  else if theta > 103.5 ∧ theta < 112.5 then ConfCode.conf_furanose_4T3
  else if theta > 112.5 ∧ theta < 121.5 then ConfCode.conf_furanose_4EV
  else if theta > 121.5 ∧ theta < 130.5 then ConfCode.conf_furanose_4TO
  else if theta > 130.5 ∧ theta < 139.5 then ConfCode.conf_furanose_EVO
  else if theta > 139.5 ∧ theta < 148.5 then ConfCode.conf_furanose_1TO
  else if theta > 148.5 ∧ theta < 157.5 then ConfCode.conf_furanose_1EV
  else if theta > 157.5 ∧ theta < 166.5 then ConfCode.conf_furanose_1T2
  else if theta > 166.5 ∧ theta < 175.5 then ConfCode.conf_furanose_2EV
  else ConfCode.conf_unassigned

/-- True on the named pyranose codes the classifier can produce (the 2
chairs and 3 bands of 12 sector labels: 38 labels). -/
def isNamedPyranoseCode : ConfCode → Bool
  | ConfCode.conf_pyranose_4C1 => true
  | ConfCode.conf_pyranose_OH1 => true
  | ConfCode.conf_pyranose_E1 => true
  | ConfCode.conf_pyranose_2H1 => true
  | ConfCode.conf_pyranose_2E => true
  | ConfCode.conf_pyranose_2H3 => true
  | ConfCode.conf_pyranose_E3 => true
  | ConfCode.conf_pyranose_4H3 => true
  | ConfCode.conf_pyranose_4E => true
  | ConfCode.conf_pyranose_4H5 => true
  | ConfCode.conf_pyranose_E5 => true
  | ConfCode.conf_pyranose_OH5 => true
  | ConfCode.conf_pyranose_OE => true
  | ConfCode.conf_pyranose_3S1 => true
  | ConfCode.conf_pyranose_B14 => true
  | ConfCode.conf_pyranose_5S1 => true
  | ConfCode.conf_pyranose_25B => true
  | ConfCode.conf_pyranose_2SO => true
  | ConfCode.conf_pyranose_B3O => true
  | ConfCode.conf_pyranose_1S3 => true
  | ConfCode.conf_pyranose_14B => true
  | ConfCode.conf_pyranose_1S5 => true
  | ConfCode.conf_pyranose_B25 => true
  | ConfCode.conf_pyranose_OS2 => true
  | ConfCode.conf_pyranose_3OB => true
  | ConfCode.conf_pyranose_3H4 => true
  | ConfCode.conf_pyranose_E4 => true
  | ConfCode.conf_pyranose_5H4 => true
  | ConfCode.conf_pyranose_5E => true
  | ConfCode.conf_pyranose_5HO => true
  | ConfCode.conf_pyranose_EO => true
  | ConfCode.conf_pyranose_1HO => true
  | ConfCode.conf_pyranose_1E => true
  | ConfCode.conf_pyranose_1H2 => true
  | ConfCode.conf_pyranose_E2 => true
  | ConfCode.conf_pyranose_3H2 => true
  | ConfCode.conf_pyranose_3E => true
  | ConfCode.conf_pyranose_1C4 => true
  | _ => false

/-- True on the named furanose codes the classifier can produce (18
distinct labels for the 20 sectors, `4EV` and `2EV` being reused). -/
def isNamedFuranoseCode : ConfCode → Bool
  | ConfCode.conf_furanose_3T2 => true
  | ConfCode.conf_furanose_3EV => true
  | ConfCode.conf_furanose_3T4 => true
  | ConfCode.conf_furanose_4EV => true
  | ConfCode.conf_furanose_OT4 => true
  | ConfCode.conf_furanose_OEV => true
  | ConfCode.conf_furanose_OT1 => true
  | ConfCode.conf_furanose_EV1 => true
  | ConfCode.conf_furanose_2T1 => true
  | ConfCode.conf_furanose_2EV => true
  | ConfCode.conf_furanose_2T3 => true
  | ConfCode.conf_furanose_EV3 => true
  | ConfCode.conf_furanose_4T3 => true
  | ConfCode.conf_furanose_4TO => true
  | ConfCode.conf_furanose_EVO => true
  | ConfCode.conf_furanose_1TO => true
  | ConfCode.conf_furanose_1EV => true
  | ConfCode.conf_furanose_1T2 => true
  | _ => false

/-- The twenty exact furanose sector bounds 4.5 + 9k, the only inputs
on which `conformationFuranose` falls through to the unassigned
code. -/
def furanose_theta_boundary (theta : ℚ) : Bool :=
  if theta = 4.5 ∨ theta = 13.5 ∨ theta = 22.5 ∨ theta = 31.5 ∨ theta = 40.5 ∨ theta = 49.5 ∨ theta = 58.5 ∨ theta = 67.5 ∨ theta = 76.5 ∨ theta = 85.5 ∨ theta = 94.5 ∨ theta = 103.5 ∨ theta = 112.5 ∨ theta = 121.5 ∨ theta = 130.5 ∨ theta = 139.5 ∨ theta = 148.5 ∨ theta = 157.5 ∨ theta = 166.5 ∨ theta = 175.5 then true else false

theorem phi_sectors_exhaust (phi : ℚ)
    (p1 : ¬(phi > 15 ∧ phi ≤ 45))
    (p2 : ¬(phi > 45 ∧ phi ≤ 75))
    (p3 : ¬(phi > 75 ∧ phi ≤ 105))
    (p4 : ¬(phi > 105 ∧ phi ≤ 135))
    (p5 : ¬(phi > 135 ∧ phi ≤ 165))
    (p6 : ¬(phi > 165 ∧ phi ≤ 195))
    (p7 : ¬(phi > 195 ∧ phi ≤ 225))
    (p8 : ¬(phi > 225 ∧ phi ≤ 255))
    (p9 : ¬(phi > 255 ∧ phi ≤ 285))
    (p10 : ¬(phi > 285 ∧ phi ≤ 315))
    (p11 : ¬(phi > 315 ∧ phi ≤ 345))
    (p12 : ¬(phi > 345 ∨ phi ≤ 15))
    : False := by
  push_neg at p1 p2 p3 p4 p5 p6 p7 p8 p9 p10 p11 p12
  have q1 := p1 p12.2
  have q2 := p2 q1
  have q3 := p3 q2
  have q4 := p4 q3
  have q5 := p5 q4
  have q6 := p6 q5
  have q7 := p7 q6
  have q8 := p8 q7
  have q9 := p9 q8
  have q10 := p10 q9
  have q11 := p11 q10
  linarith [p12.1]

theorem furanose_sectors_exhaust (theta : ℚ)
    (f1 : ¬(theta > 175.5 ∨ theta < 4.5))
    (f2 : ¬(theta > 4.5 ∧ theta < 13.5))
    (f3 : ¬(theta > 13.5 ∧ theta < 22.5))
    (f4 : ¬(theta > 22.5 ∧ theta < 31.5))
    (f5 : ¬(theta > 31.5 ∧ theta < 40.5))
    (f6 : ¬(theta > 40.5 ∧ theta < 49.5))
    (f7 : ¬(theta > 49.5 ∧ theta < 58.5))
    (f8 : ¬(theta > 58.5 ∧ theta < 67.5))
    (f9 : ¬(theta > 67.5 ∧ theta < 76.5))
    (f10 : ¬(theta > 76.5 ∧ theta < 85.5))
    (f11 : ¬(theta > 85.5 ∧ theta < 94.5))
    (f12 : ¬(theta > 94.5 ∧ theta < 103.5))
    (f13 : ¬(theta > 103.5 ∧ theta < 112.5))
    (f14 : ¬(theta > 112.5 ∧ theta < 121.5))
    (f15 : ¬(theta > 121.5 ∧ theta < 130.5))
    (f16 : ¬(theta > 130.5 ∧ theta < 139.5))
    (f17 : ¬(theta > 139.5 ∧ theta < 148.5))
    (f18 : ¬(theta > 148.5 ∧ theta < 157.5))
    (f19 : ¬(theta > 157.5 ∧ theta < 166.5))
    (f20 : ¬(theta > 166.5 ∧ theta < 175.5))
    (b1 : theta ≠ 4.5)
    (b2 : theta ≠ 13.5)
    (b3 : theta ≠ 22.5)
    (b4 : theta ≠ 31.5)
    (b5 : theta ≠ 40.5)
    (b6 : theta ≠ 49.5)
    (b7 : theta ≠ 58.5)
    (b8 : theta ≠ 67.5)
    (b9 : theta ≠ 76.5)
    (b10 : theta ≠ 85.5)
    (b11 : theta ≠ 94.5)
    (b12 : theta ≠ 103.5)
    (b13 : theta ≠ 112.5)
    (b14 : theta ≠ 121.5)
    (b15 : theta ≠ 130.5)
    (b16 : theta ≠ 139.5)
    (b17 : theta ≠ 148.5)
    (b18 : theta ≠ 157.5)
    (b19 : theta ≠ 166.5)
    (b20 : theta ≠ 175.5)
    : False := by
  push_neg at f1 f2 f3 f4 f5 f6 f7 f8 f9 f10 f11 f12 f13 f14 f15 f16 f17 f18 f19 f20
  have q1 : (4.5 : ℚ) < theta := lt_of_le_of_ne f1.2 (Ne.symm b1)
  have q2 : (13.5 : ℚ) < theta := lt_of_le_of_ne (f2 q1) (Ne.symm b2)
  have q3 : (22.5 : ℚ) < theta := lt_of_le_of_ne (f3 q2) (Ne.symm b3)
  have q4 : (31.5 : ℚ) < theta := lt_of_le_of_ne (f4 q3) (Ne.symm b4)
  have q5 : (40.5 : ℚ) < theta := lt_of_le_of_ne (f5 q4) (Ne.symm b5)
  have q6 : (49.5 : ℚ) < theta := lt_of_le_of_ne (f6 q5) (Ne.symm b6)
  have q7 : (58.5 : ℚ) < theta := lt_of_le_of_ne (f7 q6) (Ne.symm b7)
  have q8 : (67.5 : ℚ) < theta := lt_of_le_of_ne (f8 q7) (Ne.symm b8)
  have q9 : (76.5 : ℚ) < theta := lt_of_le_of_ne (f9 q8) (Ne.symm b9)
  have q10 : (85.5 : ℚ) < theta := lt_of_le_of_ne (f10 q9) (Ne.symm b10)
  have q11 : (94.5 : ℚ) < theta := lt_of_le_of_ne (f11 q10) (Ne.symm b11)
  have q12 : (103.5 : ℚ) < theta := lt_of_le_of_ne (f12 q11) (Ne.symm b12)
  have q13 : (112.5 : ℚ) < theta := lt_of_le_of_ne (f13 q12) (Ne.symm b13)
  have q14 : (121.5 : ℚ) < theta := lt_of_le_of_ne (f14 q13) (Ne.symm b14)
  have q15 : (130.5 : ℚ) < theta := lt_of_le_of_ne (f15 q14) (Ne.symm b15)
  have q16 : (139.5 : ℚ) < theta := lt_of_le_of_ne (f16 q15) (Ne.symm b16)
  have q17 : (148.5 : ℚ) < theta := lt_of_le_of_ne (f17 q16) (Ne.symm b17)
  have q18 : (157.5 : ℚ) < theta := lt_of_le_of_ne (f18 q17) (Ne.symm b18)
  have q19 : (166.5 : ℚ) < theta := lt_of_le_of_ne (f19 q18) (Ne.symm b19)
  have q20 : (175.5 : ℚ) < theta := lt_of_le_of_ne (f20 q19) (Ne.symm b20)
  exact absurd f1.1 (not_le.mpr q20)

theorem conformationPyranose_named (phi theta : ℚ) :
    isNamedPyranoseCode (conformationPyranose phi theta) = true := by
  unfold conformationPyranose
  by_cases t1 : theta ≤ 22.5
  · simp [t1, isNamedPyranoseCode]
  · by_cases t2 : theta > 22.5 ∧ theta ≤ 67.5
    ·
      by_cases p1 : phi > 15 ∧ phi ≤ 45
      · simp [t1, t2, p1, isNamedPyranoseCode]
      ·
        by_cases p2 : phi > 45 ∧ phi ≤ 75
        · simp [t1, t2, p1, p2, isNamedPyranoseCode]
        ·
          by_cases p3 : phi > 75 ∧ phi ≤ 105
          · simp [t1, t2, p1, p2, p3, isNamedPyranoseCode]
          ·
            by_cases p4 : phi > 105 ∧ phi ≤ 135
            · simp [t1, t2, p1, p2, p3, p4, isNamedPyranoseCode]
            ·
              by_cases p5 : phi > 135 ∧ phi ≤ 165
              · simp [t1, t2, p1, p2, p3, p4, p5, isNamedPyranoseCode]
              ·
                by_cases p6 : phi > 165 ∧ phi ≤ 195
                · simp [t1, t2, p1, p2, p3, p4, p5, p6, isNamedPyranoseCode]
                ·
                  by_cases p7 : phi > 195 ∧ phi ≤ 225
                  · simp [t1, t2, p1, p2, p3, p4, p5, p6, p7, isNamedPyranoseCode]
                  ·
                    by_cases p8 : phi > 225 ∧ phi ≤ 255
                    · simp [t1, t2, p1, p2, p3, p4, p5, p6, p7, p8, isNamedPyranoseCode]
                    ·
                      by_cases p9 : phi > 255 ∧ phi ≤ 285
                      · simp [t1, t2, p1, p2, p3, p4, p5, p6, p7, p8, p9, isNamedPyranoseCode]
                      ·
                        by_cases p10 : phi > 285 ∧ phi ≤ 315
                        · simp [t1, t2, p1, p2, p3, p4, p5, p6, p7, p8, p9, p10, isNamedPyranoseCode]
                        ·
                          by_cases p11 : phi > 315 ∧ phi ≤ 345
                          · simp [t1, t2, p1, p2, p3, p4, p5, p6, p7, p8, p9, p10, p11, isNamedPyranoseCode]
                          ·
                            by_cases p12 : phi > 345 ∨ phi ≤ 15
                            · simp [t1, t2, p1, p2, p3, p4, p5, p6, p7, p8, p9, p10, p11, p12, isNamedPyranoseCode]
                            · exact (phi_sectors_exhaust phi p1 p2 p3 p4 p5 p6 p7 p8 p9 p10 p11 p12).elim
    · by_cases t3 : theta > 67.5 ∧ theta ≤ 112.5
      ·
        by_cases p1 : phi > 15 ∧ phi ≤ 45
        · simp [t1, t2, t3, p1, isNamedPyranoseCode]
        ·
          by_cases p2 : phi > 45 ∧ phi ≤ 75
          · simp [t1, t2, t3, p1, p2, isNamedPyranoseCode]
          ·
            by_cases p3 : phi > 75 ∧ phi ≤ 105
            · simp [t1, t2, t3, p1, p2, p3, isNamedPyranoseCode]
            ·
              by_cases p4 : phi > 105 ∧ phi ≤ 135
              · simp [t1, t2, t3, p1, p2, p3, p4, isNamedPyranoseCode]
              ·
                by_cases p5 : phi > 135 ∧ phi ≤ 165
                · simp [t1, t2, t3, p1, p2, p3, p4, p5, isNamedPyranoseCode]
                ·
                  by_cases p6 : phi > 165 ∧ phi ≤ 195
                  · simp [t1, t2, t3, p1, p2, p3, p4, p5, p6, isNamedPyranoseCode]
                  ·
                    by_cases p7 : phi > 195 ∧ phi ≤ 225
                    · simp [t1, t2, t3, p1, p2, p3, p4, p5, p6, p7, isNamedPyranoseCode]
                    ·
                      by_cases p8 : phi > 225 ∧ phi ≤ 255
                      · simp [t1, t2, t3, p1, p2, p3, p4, p5, p6, p7, p8, isNamedPyranoseCode]
                      ·
                        by_cases p9 : phi > 255 ∧ phi ≤ 285
                        · simp [t1, t2, t3, p1, p2, p3, p4, p5, p6, p7, p8, p9, isNamedPyranoseCode]
                        ·
                          by_cases p10 : phi > 285 ∧ phi ≤ 315
                          · simp [t1, t2, t3, p1, p2, p3, p4, p5, p6, p7, p8, p9, p10, isNamedPyranoseCode]
                          ·
                            by_cases p11 : phi > 315 ∧ phi ≤ 345
                            · simp [t1, t2, t3, p1, p2, p3, p4, p5, p6, p7, p8, p9, p10, p11, isNamedPyranoseCode]
                            ·
                              by_cases p12 : phi > 345 ∨ phi ≤ 15
                              · simp [t1, t2, t3, p1, p2, p3, p4, p5, p6, p7, p8, p9, p10, p11, p12, isNamedPyranoseCode]
                              · exact (phi_sectors_exhaust phi p1 p2 p3 p4 p5 p6 p7 p8 p9 p10 p11 p12).elim
      · by_cases t4 : theta > 112.5 ∧ theta ≤ 157.5
        ·
          by_cases p1 : phi > 15 ∧ phi ≤ 45
          · simp [t1, t2, t3, t4, p1, isNamedPyranoseCode]
          ·
            by_cases p2 : phi > 45 ∧ phi ≤ 75
            · simp [t1, t2, t3, t4, p1, p2, isNamedPyranoseCode]
            ·
              by_cases p3 : phi > 75 ∧ phi ≤ 105
              · simp [t1, t2, t3, t4, p1, p2, p3, isNamedPyranoseCode]
              ·
                by_cases p4 : phi > 105 ∧ phi ≤ 135
                · simp [t1, t2, t3, t4, p1, p2, p3, p4, isNamedPyranoseCode]
                ·
                  by_cases p5 : phi > 135 ∧ phi ≤ 165
                  · simp [t1, t2, t3, t4, p1, p2, p3, p4, p5, isNamedPyranoseCode]
                  ·
                    by_cases p6 : phi > 165 ∧ phi ≤ 195
                    · simp [t1, t2, t3, t4, p1, p2, p3, p4, p5, p6, isNamedPyranoseCode]
                    ·
                      by_cases p7 : phi > 195 ∧ phi ≤ 225
                      · simp [t1, t2, t3, t4, p1, p2, p3, p4, p5, p6, p7, isNamedPyranoseCode]
                      ·
                        by_cases p8 : phi > 225 ∧ phi ≤ 255
                        · simp [t1, t2, t3, t4, p1, p2, p3, p4, p5, p6, p7, p8, isNamedPyranoseCode]
                        ·
                          by_cases p9 : phi > 255 ∧ phi ≤ 285
                          · simp [t1, t2, t3, t4, p1, p2, p3, p4, p5, p6, p7, p8, p9, isNamedPyranoseCode]
                          ·
                            by_cases p10 : phi > 285 ∧ phi ≤ 315
                            · simp [t1, t2, t3, t4, p1, p2, p3, p4, p5, p6, p7, p8, p9, p10, isNamedPyranoseCode]
                            ·
                              by_cases p11 : phi > 315 ∧ phi ≤ 345
                              · simp [t1, t2, t3, t4, p1, p2, p3, p4, p5, p6, p7, p8, p9, p10, p11, isNamedPyranoseCode]
                              ·
                                by_cases p12 : phi > 345 ∨ phi ≤ 15
                                · simp [t1, t2, t3, t4, p1, p2, p3, p4, p5, p6, p7, p8, p9, p10, p11, p12, isNamedPyranoseCode]
                                · exact (phi_sectors_exhaust phi p1 p2 p3 p4 p5 p6 p7 p8 p9 p10 p11 p12).elim
        · by_cases t5 : theta ≥ 157.5
          · simp [t1, t2, t3, t4, t5, isNamedPyranoseCode]
          · exfalso
            push_neg at t1 t2 t3 t4 t5
            have r2 := t2 t1
            have r3 := t3 (by linarith)
            have r4 := t4 (by linarith)
            linarith

theorem conformationFuranose_named_off_boundary (theta : ℚ)
    (hb : furanose_theta_boundary theta = false) :
    isNamedFuranoseCode (conformationFuranose theta) = true := by
  have hb2 : ¬(theta = 4.5 ∨ theta = 13.5 ∨ theta = 22.5 ∨ theta = 31.5 ∨ theta = 40.5 ∨ theta = 49.5 ∨ theta = 58.5 ∨ theta = 67.5 ∨ theta = 76.5 ∨ theta = 85.5 ∨ theta = 94.5 ∨ theta = 103.5 ∨ theta = 112.5 ∨ theta = 121.5 ∨ theta = 130.5 ∨ theta = 139.5 ∨ theta = 148.5 ∨ theta = 157.5 ∨ theta = 166.5 ∨ theta = 175.5) := by
    intro hcon
    unfold furanose_theta_boundary at hb
    rw [if_pos hcon] at hb
    exact Bool.noConfusion hb
  push_neg at hb2
  obtain ⟨b1, b2, b3, b4, b5, b6, b7, b8, b9, b10, b11, b12, b13, b14, b15, b16, b17, b18, b19, b20⟩ := hb2
  unfold conformationFuranose
  by_cases f1 : theta > 175.5 ∨ theta < 4.5
  · simp [f1, isNamedFuranoseCode]
  ·
    by_cases f2 : theta > 4.5 ∧ theta < 13.5
    · simp [f1, f2, isNamedFuranoseCode]
    ·
      by_cases f3 : theta > 13.5 ∧ theta < 22.5
      · simp [f1, f2, f3, isNamedFuranoseCode]
      ·
        by_cases f4 : theta > 22.5 ∧ theta < 31.5
        · simp [f1, f2, f3, f4, isNamedFuranoseCode]
        ·
          by_cases f5 : theta > 31.5 ∧ theta < 40.5
          · simp [f1, f2, f3, f4, f5, isNamedFuranoseCode]
          ·
            by_cases f6 : theta > 40.5 ∧ theta < 49.5
            · simp [f1, f2, f3, f4, f5, f6, isNamedFuranoseCode]
            ·
              by_cases f7 : theta > 49.5 ∧ theta < 58.5
              · simp [f1, f2, f3, f4, f5, f6, f7, isNamedFuranoseCode]
              ·
                by_cases f8 : theta > 58.5 ∧ theta < 67.5
                · simp [f1, f2, f3, f4, f5, f6, f7, f8, isNamedFuranoseCode]
                ·
                  by_cases f9 : theta > 67.5 ∧ theta < 76.5
                  · simp [f1, f2, f3, f4, f5, f6, f7, f8, f9, isNamedFuranoseCode]
                  ·
                    by_cases f10 : theta > 76.5 ∧ theta < 85.5
                    · simp [f1, f2, f3, f4, f5, f6, f7, f8, f9, f10, isNamedFuranoseCode]
                    ·
                      by_cases f11 : theta > 85.5 ∧ theta < 94.5
                      · simp [f1, f2, f3, f4, f5, f6, f7, f8, f9, f10, f11, isNamedFuranoseCode]
                      ·
                        by_cases f12 : theta > 94.5 ∧ theta < 103.5
                        · simp [f1, f2, f3, f4, f5, f6, f7, f8, f9, f10, f11, f12, isNamedFuranoseCode]
                        ·
                          by_cases f13 : theta > 103.5 ∧ theta < 112.5
                          · simp [f1, f2, f3, f4, f5, f6, f7, f8, f9, f10, f11, f12, f13, isNamedFuranoseCode]
                          ·
                            by_cases f14 : theta > 112.5 ∧ theta < 121.5
                            · simp [f1, f2, f3, f4, f5, f6, f7, f8, f9, f10, f11, f12, f13, f14, isNamedFuranoseCode]
                            ·
                              by_cases f15 : theta > 121.5 ∧ theta < 130.5
                              · simp [f1, f2, f3, f4, f5, f6, f7, f8, f9, f10, f11, f12, f13, f14, f15, isNamedFuranoseCode]
                              ·
                                by_cases f16 : theta > 130.5 ∧ theta < 139.5
                                · simp [f1, f2, f3, f4, f5, f6, f7, f8, f9, f10, f11, f12, f13, f14, f15, f16, isNamedFuranoseCode]
                                ·
                                  by_cases f17 : theta > 139.5 ∧ theta < 148.5
                                  · simp [f1, f2, f3, f4, f5, f6, f7, f8, f9, f10, f11, f12, f13, f14, f15, f16, f17, isNamedFuranoseCode]
                                  ·
                                    by_cases f18 : theta > 148.5 ∧ theta < 157.5
                                    · simp [f1, f2, f3, f4, f5, f6, f7, f8, f9, f10, f11, f12, f13, f14, f15, f16, f17, f18, isNamedFuranoseCode]
                                    ·
                                      by_cases f19 : theta > 157.5 ∧ theta < 166.5
                                      · simp [f1, f2, f3, f4, f5, f6, f7, f8, f9, f10, f11, f12, f13, f14, f15, f16, f17, f18, f19, isNamedFuranoseCode]
                                      ·
                                        by_cases f20 : theta > 166.5 ∧ theta < 175.5
                                        · simp [f1, f2, f3, f4, f5, f6, f7, f8, f9, f10, f11, f12, f13, f14, f15, f16, f17, f18, f19, f20, isNamedFuranoseCode]
                                        · exact (furanose_sectors_exhaust theta f1 f2 f3 f4 f5 f6 f7 f8 f9 f10 f11 f12 f13 f14 f15 f16 f17 f18 f19 f20 b1 b2 b3 b4 b5 b6 b7 b8 b9 b10 b11 b12 b13 b14 b15 b16 b17 b18 b19 b20).elim

/-! ## Claim C3: totality of the conformation classifiers -/

/-- Claim C3 counterexample.  The claim states that both classifiers
resolve every boundary value to a named code (exclusive lower bound,
inclusive upper bound).  At the furanose sector bound theta = 4.5 —
inside the claimed domain [0, 360) — every branch of
`conformationFuranose` is strict, so the unassigned default 0 is
returned, which is not one of the named furanose codes. -/
theorem conformation_classifier_counterexample :
    (0 : ℚ) ≤ 4.5 ∧ (4.5 : ℚ) < 360
    ∧ conformationFuranose 4.5 = ConfCode.conf_unassigned
    ∧ isNamedFuranoseCode ConfCode.conf_unassigned = false := by
  refine ⟨by norm_num, by norm_num, by norm_num [conformationFuranose], rfl⟩

/-- Claim C3 (amended): `conformationPyranose` is total onto the named
pyranose codes — for every rational phi and theta (a fortiori on
phi ∈ [0,360), theta ∈ [0,180]) exactly one branch fires and yields a
named sector label, boundaries resolving with exclusive lower and
inclusive upper bound; `conformationFuranose`, whose bounds are
exclusive on BOTH sides, yields a named code exactly off the twenty
sector bounds 4.5 + 9k, and returns the unassigned default code on
each of those bounds. -/
theorem conformation_classifier_totality :
    (∀ phi theta : ℚ, isNamedPyranoseCode (conformationPyranose phi theta) = true)
    ∧ (∀ theta : ℚ, furanose_theta_boundary theta = false →
        isNamedFuranoseCode (conformationFuranose theta) = true)
    ∧ (∀ theta : ℚ, furanose_theta_boundary theta = true →
        conformationFuranose theta = ConfCode.conf_unassigned) := by
  refine ⟨conformationPyranose_named, conformationFuranose_named_off_boundary, ?_⟩
  intro theta h
  unfold furanose_theta_boundary at h
  split_ifs at h with hc
  rcases hc with rfl | rfl | rfl | rfl | rfl | rfl | rfl | rfl | rfl | rfl
    | rfl | rfl | rfl | rfl | rfl | rfl | rfl | rfl | rfl | rfl <;>
    norm_num [conformationFuranose]

/-- Claim C3 witness: theta = 9 is off the furanose bounds and is named
(sector (4.5, 13.5)); theta = 4.5 is a bound and falls through. -/
theorem conformation_classifier_totality_witness :
    isNamedFuranoseCode (conformationFuranose 9) = true
    ∧ conformationFuranose 4.5 = ConfCode.conf_unassigned :=
  ⟨conformation_classifier_totality.2.1 9 (by norm_num [furanose_theta_boundary]),
   conformation_classifier_totality.2.2 4.5 (by norm_num [furanose_theta_boundary])⟩

/-! ## Cremer-Pople projection, pyranose
(clipper-glyco.cpp:292-540, geometric core at lines 383-471)

The source works on `clipper::Coord_orth`/`Vec3<ftype>` (doubles); the
embedding uses exact reals.  Atom-by-name lookups of the source are
replaced by passing the six ring-atom coordinates directly. -/

noncomputable section

/-- 3-vector of reals, embedding `clipper::Vec3<ftype>` /
`Coord_orth`. -/
@[ext]
structure Vec3R where
  x : ℝ
  y : ℝ
  z : ℝ

namespace Vec3R

def add (a b : Vec3R) : Vec3R := ⟨a.x + b.x, a.y + b.y, a.z + b.z⟩

def sub (a b : Vec3R) : Vec3R := ⟨a.x - b.x, a.y - b.y, a.z - b.z⟩

def smul (c : ℝ) (a : Vec3R) : Vec3R := ⟨c * a.x, c * a.y, c * a.z⟩

/-- `Vec3::dot`. -/
def dot (a b : Vec3R) : ℝ := a.x * b.x + a.y * b.y + a.z * b.z

/-- `Vec3::cross`. -/
def cross (a b : Vec3R) : Vec3R :=
  ⟨a.y * b.z - a.z * b.y, a.z * b.x - a.x * b.z, a.x * b.y - a.y * b.x⟩

/-- `Vec3::unit`: the vector scaled by the reciprocal square root of
its squared length. -/
def unitv (a : Vec3R) : Vec3R := smul (1 / Real.sqrt (dot a a)) a

end Vec3R

/-- The geometric centre of the six ring atoms
(clipper-glyco.cpp:335-363): the coordinate sums divided by 6. -/
def cpCentre (p1 p2 p3 p4 p5 p6 : Vec3R) : Vec3R :=
  Vec3R.smul (1 / 6) (((((p1.add p2).add p3).add p4).add p5).add p6)

/-- `rPrime` (clipper-glyco.cpp:383-409): the recentred coordinates
weighted by `sin(2*pi*(j-1)/6)`, j = 1..6. -/
def cpRPrime (p1 p2 p3 p4 p5 p6 : Vec3R) : Vec3R :=
  let c := cpCentre p1 p2 p3 p4 p5 p6
  (((((Vec3R.smul (Real.sin 0) (p1.sub c)).add
    (Vec3R.smul (Real.sin (2 * Real.pi / 6)) (p2.sub c))).add
    (Vec3R.smul (Real.sin (2 * Real.pi * 2 / 6)) (p3.sub c))).add
    (Vec3R.smul (Real.sin (2 * Real.pi * 3 / 6)) (p4.sub c))).add
    (Vec3R.smul (Real.sin (2 * Real.pi * 4 / 6)) (p5.sub c))).add
    (Vec3R.smul (Real.sin (2 * Real.pi * 5 / 6)) (p6.sub c))

/-- `r2Prime` (clipper-glyco.cpp:383-409): the same sum with cosine
weights. -/
def cpR2Prime (p1 p2 p3 p4 p5 p6 : Vec3R) : Vec3R :=
  let c := cpCentre p1 p2 p3 p4 p5 p6
  (((((Vec3R.smul (Real.cos 0) (p1.sub c)).add
    (Vec3R.smul (Real.cos (2 * Real.pi / 6)) (p2.sub c))).add
    (Vec3R.smul (Real.cos (2 * Real.pi * 2 / 6)) (p3.sub c))).add
    (Vec3R.smul (Real.cos (2 * Real.pi * 3 / 6)) (p4.sub c))).add
    (Vec3R.smul (Real.cos (2 * Real.pi * 4 / 6)) (p5.sub c))).add
    (Vec3R.smul (Real.cos (2 * Real.pi * 5 / 6)) (p6.sub c))

/-- The mean-plane normal `n = cross(rPrime, r2Prime).unit()`
(clipper-glyco.cpp:411). -/
def cpNormal (p1 p2 p3 p4 p5 p6 : Vec3R) : Vec3R :=
  Vec3R.unitv (Vec3R.cross (cpRPrime p1 p2 p3 p4 p5 p6)
    (cpR2Prime p1 p2 p3 p4 p5 p6))

/-- The signed displacement of a (recentred) atom along the mean-plane
normal: `z = dot(coord - centre, n)` (clipper-glyco.cpp:415-420, after
the recentring transform of line 372). -/
def cpZ (p1 p2 p3 p4 p5 p6 q : Vec3R) : ℝ :=
  Vec3R.dot (q.sub (cpCentre p1 p2 p3 p4 p5 p6)) (cpNormal p1 p2 p3 p4 p5 p6)

/-- `totalPuckering` (clipper-glyco.cpp:462). -/
def cpTotalPuckering (p1 p2 p3 p4 p5 p6 : Vec3R) : ℝ :=
  Real.sqrt ((cpZ p1 p2 p3 p4 p5 p6 p1) ^ 2 + (cpZ p1 p2 p3 p4 p5 p6 p2) ^ 2
    + (cpZ p1 p2 p3 p4 p5 p6 p3) ^ 2 + (cpZ p1 p2 p3 p4 p5 p6 p4) ^ 2
    + (cpZ p1 p2 p3 p4 p5 p6 p5) ^ 2 + (cpZ p1 p2 p3 p4 p5 p6 p6) ^ 2)

/-- `q3` (clipper-glyco.cpp:466), in the source's summand order. -/
def cpQ3 (p1 p2 p3 p4 p5 p6 : Vec3R) : ℝ :=
  Real.sqrt (1 / 6) * (cpZ p1 p2 p3 p4 p5 p6 p3 + cpZ p1 p2 p3 p4 p5 p6 p5
    + cpZ p1 p2 p3 p4 p5 p6 p1 - cpZ p1 p2 p3 p4 p5 p6 p2
    - cpZ p1 p2 p3 p4 p5 p6 p4 - cpZ p1 p2 p3 p4 p5 p6 p6)

/-- `theta` before degree conversion (clipper-glyco.cpp:468). -/
def cpThetaRad (p1 p2 p3 p4 p5 p6 : Vec3R) : ℝ :=
  Real.arccos (cpQ3 p1 p2 p3 p4 p5 p6 / cpTotalPuckering p1 p2 p3 p4 p5 p6)

/-- `q2 = totalPuckering * sin(theta)` (clipper-glyco.cpp:469),
computed with the radian theta, before the degree conversion of
line 471. -/
def cpQ2 (p1 p2 p3 p4 p5 p6 : Vec3R) : ℝ :=
  cpTotalPuckering p1 p2 p3 p4 p5 p6 * Real.sin (cpThetaRad p1 p2 p3 p4 p5 p6)

/-- `theta` in degrees (clipper-glyco.cpp:471). -/
def cpThetaDeg (p1 p2 p3 p4 p5 p6 : Vec3R) : ℝ :=
  cpThetaRad p1 p2 p3 p4 p5 p6 * (180 / Real.pi)

/-! ## Claim C8: the pyranose Cremer-Pople formulas -/

/-- Claim C8: for every 6-ring, the pyranose Cremer-Pople computation
satisfies amplitude = sqrt(z1²+z2²+z3²+z4²+z5²+z6²),
q3 = sqrt(1/6)·(z1+z3+z5−z2−z4−z6), theta = arccos(q3/amplitude)
converted to degrees, and q2 = amplitude·sin(theta), where the zᵢ are
the ring atoms' signed projections onto the mean-plane normal after the
centroid translation. -/
theorem cremer_pople_pyranose_formulas (p1 p2 p3 p4 p5 p6 : Vec3R) :
    cpTotalPuckering p1 p2 p3 p4 p5 p6
      = Real.sqrt ((cpZ p1 p2 p3 p4 p5 p6 p1) ^ 2 + (cpZ p1 p2 p3 p4 p5 p6 p2) ^ 2
        + (cpZ p1 p2 p3 p4 p5 p6 p3) ^ 2 + (cpZ p1 p2 p3 p4 p5 p6 p4) ^ 2
        + (cpZ p1 p2 p3 p4 p5 p6 p5) ^ 2 + (cpZ p1 p2 p3 p4 p5 p6 p6) ^ 2)
    ∧ cpQ3 p1 p2 p3 p4 p5 p6
      = Real.sqrt (1 / 6) * (cpZ p1 p2 p3 p4 p5 p6 p1 + cpZ p1 p2 p3 p4 p5 p6 p3
        + cpZ p1 p2 p3 p4 p5 p6 p5 - cpZ p1 p2 p3 p4 p5 p6 p2
        - cpZ p1 p2 p3 p4 p5 p6 p4 - cpZ p1 p2 p3 p4 p5 p6 p6)
    ∧ cpThetaDeg p1 p2 p3 p4 p5 p6
      = Real.arccos (cpQ3 p1 p2 p3 p4 p5 p6 / cpTotalPuckering p1 p2 p3 p4 p5 p6)
          * (180 / Real.pi)
    ∧ cpQ2 p1 p2 p3 p4 p5 p6
      = cpTotalPuckering p1 p2 p3 p4 p5 p6
          * Real.sin (Real.arccos (cpQ3 p1 p2 p3 p4 p5 p6
              / cpTotalPuckering p1 p2 p3 p4 p5 p6)) := by
  refine ⟨rfl, ?_, rfl, rfl⟩
  unfold cpQ3
  ring

/-! ## Rigid rotations -/

/-- A 3x3 real matrix given by its rows. -/
structure Mat3 where
  r0 : Vec3R
  r1 : Vec3R
  r2 : Vec3R

/-- Matrix application, `(R v)ᵢ = rowᵢ · v`. -/
def Mat3.app (R : Mat3) (v : Vec3R) : Vec3R :=
  ⟨Vec3R.dot R.r0 v, Vec3R.dot R.r1 v, Vec3R.dot R.r2 v⟩

/-- A rigid rotation: orthonormal rows and determinant +1 (the scalar
triple product of the rows). -/
def IsRotation (R : Mat3) : Prop :=
  Vec3R.dot R.r0 R.r0 = 1 ∧ Vec3R.dot R.r1 R.r1 = 1 ∧ Vec3R.dot R.r2 R.r2 = 1
  ∧ Vec3R.dot R.r0 R.r1 = 0 ∧ Vec3R.dot R.r0 R.r2 = 0 ∧ Vec3R.dot R.r1 R.r2 = 0
  ∧ Vec3R.dot R.r0 (Vec3R.cross R.r1 R.r2) = 1

/-- The rows of a rotation form a right-handed triple: each row is the
cross product of the other two, cyclically. -/
theorem rot_cross_rows (R : Mat3) (h : IsRotation R) :
    Vec3R.cross R.r1 R.r2 = R.r0 ∧ Vec3R.cross R.r2 R.r0 = R.r1
    ∧ Vec3R.cross R.r0 R.r1 = R.r2 := by
  obtain ⟨h00, h11, h22, h01, h02, h12, hdet⟩ := h
  have hdet1 : Vec3R.dot R.r1 (Vec3R.cross R.r2 R.r0)
      = Vec3R.dot R.r0 (Vec3R.cross R.r1 R.r2) := by
    simp only [Vec3R.dot, Vec3R.cross]; ring
  have hdet2 : Vec3R.dot R.r2 (Vec3R.cross R.r0 R.r1)
      = Vec3R.dot R.r0 (Vec3R.cross R.r1 R.r2) := by
    simp only [Vec3R.dot, Vec3R.cross]; ring
  refine ⟨?_, ?_, ?_⟩
  · have key : ((Vec3R.cross R.r1 R.r2).x - R.r0.x) ^ 2
        + ((Vec3R.cross R.r1 R.r2).y - R.r0.y) ^ 2
        + ((Vec3R.cross R.r1 R.r2).z - R.r0.z) ^ 2
        = Vec3R.dot R.r1 R.r1 * Vec3R.dot R.r2 R.r2 - (Vec3R.dot R.r1 R.r2) ^ 2
          - 2 * Vec3R.dot R.r0 (Vec3R.cross R.r1 R.r2) + Vec3R.dot R.r0 R.r0 := by
      simp only [Vec3R.dot, Vec3R.cross]; ring
    rw [h11, h22, h12, hdet, h00] at key
    norm_num at key
    have hgx : (Vec3R.cross R.r1 R.r2).x - R.r0.x = 0 := by
      have hsq : ((Vec3R.cross R.r1 R.r2).x - R.r0.x) ^ 2 = 0 := by
        linarith [sq_nonneg ((Vec3R.cross R.r1 R.r2).x - R.r0.x), sq_nonneg ((Vec3R.cross R.r1 R.r2).y - R.r0.y), sq_nonneg ((Vec3R.cross R.r1 R.r2).z - R.r0.z)]
      exact sq_eq_zero_iff.mp hsq
    have hgy : (Vec3R.cross R.r1 R.r2).y - R.r0.y = 0 := by
      have hsq : ((Vec3R.cross R.r1 R.r2).y - R.r0.y) ^ 2 = 0 := by
        linarith [sq_nonneg ((Vec3R.cross R.r1 R.r2).x - R.r0.x), sq_nonneg ((Vec3R.cross R.r1 R.r2).y - R.r0.y), sq_nonneg ((Vec3R.cross R.r1 R.r2).z - R.r0.z)]
      exact sq_eq_zero_iff.mp hsq
    have hgz : (Vec3R.cross R.r1 R.r2).z - R.r0.z = 0 := by
      have hsq : ((Vec3R.cross R.r1 R.r2).z - R.r0.z) ^ 2 = 0 := by
        linarith [sq_nonneg ((Vec3R.cross R.r1 R.r2).x - R.r0.x), sq_nonneg ((Vec3R.cross R.r1 R.r2).y - R.r0.y), sq_nonneg ((Vec3R.cross R.r1 R.r2).z - R.r0.z)]
      exact sq_eq_zero_iff.mp hsq
    ext
    · linarith [hgx]
    · linarith [hgy]
    · linarith [hgz]
  · have key : ((Vec3R.cross R.r2 R.r0).x - R.r1.x) ^ 2
        + ((Vec3R.cross R.r2 R.r0).y - R.r1.y) ^ 2
        + ((Vec3R.cross R.r2 R.r0).z - R.r1.z) ^ 2
        = Vec3R.dot R.r2 R.r2 * Vec3R.dot R.r0 R.r0 - (Vec3R.dot R.r0 R.r2) ^ 2
          - 2 * Vec3R.dot R.r1 (Vec3R.cross R.r2 R.r0) + Vec3R.dot R.r1 R.r1 := by
      simp only [Vec3R.dot, Vec3R.cross]; ring
    rw [h22, h00, h02, hdet1, hdet, h11] at key
    norm_num at key
    have hgx : (Vec3R.cross R.r2 R.r0).x - R.r1.x = 0 := by
      have hsq : ((Vec3R.cross R.r2 R.r0).x - R.r1.x) ^ 2 = 0 := by
        linarith [sq_nonneg ((Vec3R.cross R.r2 R.r0).x - R.r1.x), sq_nonneg ((Vec3R.cross R.r2 R.r0).y - R.r1.y), sq_nonneg ((Vec3R.cross R.r2 R.r0).z - R.r1.z)]
      exact sq_eq_zero_iff.mp hsq
    have hgy : (Vec3R.cross R.r2 R.r0).y - R.r1.y = 0 := by
      have hsq : ((Vec3R.cross R.r2 R.r0).y - R.r1.y) ^ 2 = 0 := by
        linarith [sq_nonneg ((Vec3R.cross R.r2 R.r0).x - R.r1.x), sq_nonneg ((Vec3R.cross R.r2 R.r0).y - R.r1.y), sq_nonneg ((Vec3R.cross R.r2 R.r0).z - R.r1.z)]
      exact sq_eq_zero_iff.mp hsq
    have hgz : (Vec3R.cross R.r2 R.r0).z - R.r1.z = 0 := by
      have hsq : ((Vec3R.cross R.r2 R.r0).z - R.r1.z) ^ 2 = 0 := by
        linarith [sq_nonneg ((Vec3R.cross R.r2 R.r0).x - R.r1.x), sq_nonneg ((Vec3R.cross R.r2 R.r0).y - R.r1.y), sq_nonneg ((Vec3R.cross R.r2 R.r0).z - R.r1.z)]
      exact sq_eq_zero_iff.mp hsq
    ext
    · linarith [hgx]
    · linarith [hgy]
    · linarith [hgz]
  · have key : ((Vec3R.cross R.r0 R.r1).x - R.r2.x) ^ 2
        + ((Vec3R.cross R.r0 R.r1).y - R.r2.y) ^ 2
        + ((Vec3R.cross R.r0 R.r1).z - R.r2.z) ^ 2
        = Vec3R.dot R.r0 R.r0 * Vec3R.dot R.r1 R.r1 - (Vec3R.dot R.r0 R.r1) ^ 2
          - 2 * Vec3R.dot R.r2 (Vec3R.cross R.r0 R.r1) + Vec3R.dot R.r2 R.r2 := by
      simp only [Vec3R.dot, Vec3R.cross]; ring
    rw [h00, h11, h01, hdet2, hdet, h22] at key
    norm_num at key
    have hgx : (Vec3R.cross R.r0 R.r1).x - R.r2.x = 0 := by
      have hsq : ((Vec3R.cross R.r0 R.r1).x - R.r2.x) ^ 2 = 0 := by
        linarith [sq_nonneg ((Vec3R.cross R.r0 R.r1).x - R.r2.x), sq_nonneg ((Vec3R.cross R.r0 R.r1).y - R.r2.y), sq_nonneg ((Vec3R.cross R.r0 R.r1).z - R.r2.z)]
      exact sq_eq_zero_iff.mp hsq
    have hgy : (Vec3R.cross R.r0 R.r1).y - R.r2.y = 0 := by
      have hsq : ((Vec3R.cross R.r0 R.r1).y - R.r2.y) ^ 2 = 0 := by
        linarith [sq_nonneg ((Vec3R.cross R.r0 R.r1).x - R.r2.x), sq_nonneg ((Vec3R.cross R.r0 R.r1).y - R.r2.y), sq_nonneg ((Vec3R.cross R.r0 R.r1).z - R.r2.z)]
      exact sq_eq_zero_iff.mp hsq
    have hgz : (Vec3R.cross R.r0 R.r1).z - R.r2.z = 0 := by
      have hsq : ((Vec3R.cross R.r0 R.r1).z - R.r2.z) ^ 2 = 0 := by
        linarith [sq_nonneg ((Vec3R.cross R.r0 R.r1).x - R.r2.x), sq_nonneg ((Vec3R.cross R.r0 R.r1).y - R.r2.y), sq_nonneg ((Vec3R.cross R.r0 R.r1).z - R.r2.z)]
      exact sq_eq_zero_iff.mp hsq
    ext
    · linarith [hgx]
    · linarith [hgy]
    · linarith [hgz]

/-- Rotations preserve the dot product. -/
theorem rot_dot (R : Mat3) (h : IsRotation R) (a b : Vec3R) :
    Vec3R.dot (R.app a) (R.app b) = Vec3R.dot a b := by
  obtain ⟨hc0, hc1, hc2⟩ := rot_cross_rows R h
  have hdet := h.2.2.2.2.2.2
  have key : Vec3R.dot R.r0 (Vec3R.cross R.r1 R.r2) * Vec3R.dot a b
      = Vec3R.dot a R.r0 * Vec3R.dot (Vec3R.cross R.r1 R.r2) b
        + Vec3R.dot a R.r1 * Vec3R.dot (Vec3R.cross R.r2 R.r0) b
        + Vec3R.dot a R.r2 * Vec3R.dot (Vec3R.cross R.r0 R.r1) b := by
    simp only [Vec3R.dot, Vec3R.cross]; ring
  rw [hdet] at key
  rw [hc0, hc1, hc2, one_mul] at key
  simp only [Mat3.app, Vec3R.dot] at key ⊢
  linear_combination -key

/-- Rotations commute with the cross product. -/
theorem rot_cross (R : Mat3) (h : IsRotation R) (a b : Vec3R) :
    Vec3R.cross (R.app a) (R.app b) = R.app (Vec3R.cross a b) := by
  obtain ⟨hc0, hc1, hc2⟩ := rot_cross_rows R h
  have e0x := congrArg Vec3R.x hc0
  have e0y := congrArg Vec3R.y hc0
  have e0z := congrArg Vec3R.z hc0
  have e1x := congrArg Vec3R.x hc1
  have e1y := congrArg Vec3R.y hc1
  have e1z := congrArg Vec3R.z hc1
  have e2x := congrArg Vec3R.x hc2
  have e2y := congrArg Vec3R.y hc2
  have e2z := congrArg Vec3R.z hc2
  simp only [Vec3R.cross] at e0x e0y e0z e1x e1y e1z e2x e2y e2z
  ext
  · simp only [Mat3.app, Vec3R.cross, Vec3R.dot]
    linear_combination (a.y * b.z - a.z * b.y) * e0x
      + (a.z * b.x - a.x * b.z) * e0y + (a.x * b.y - a.y * b.x) * e0z
  · simp only [Mat3.app, Vec3R.cross, Vec3R.dot]
    linear_combination (a.y * b.z - a.z * b.y) * e1x
      + (a.z * b.x - a.x * b.z) * e1y + (a.x * b.y - a.y * b.x) * e1z
  · simp only [Mat3.app, Vec3R.cross, Vec3R.dot]
    linear_combination (a.y * b.z - a.z * b.y) * e2x
      + (a.z * b.x - a.x * b.z) * e2y + (a.x * b.y - a.y * b.x) * e2z

theorem Mat3.app_sub (R : Mat3) (a b : Vec3R) :
    R.app (a.sub b) = (R.app a).sub (R.app b) := by
  ext <;> simp [Mat3.app, Vec3R.dot, Vec3R.sub] <;> ring

theorem Mat3.app_smul (R : Mat3) (c : ℝ) (a : Vec3R) :
    R.app (Vec3R.smul c a) = Vec3R.smul c (R.app a) := by
  ext <;> simp [Mat3.app, Vec3R.dot, Vec3R.smul] <;> ring

/-- The centroid of rotated coordinates is the rotated centroid. -/
theorem cpCentre_rot (R : Mat3) (p1 p2 p3 p4 p5 p6 : Vec3R) :
    cpCentre (R.app p1) (R.app p2) (R.app p3) (R.app p4) (R.app p5) (R.app p6)
      = R.app (cpCentre p1 p2 p3 p4 p5 p6) := by
  ext <;>
    simp only [cpCentre, Mat3.app, Vec3R.dot, Vec3R.add, Vec3R.smul] <;> ring

theorem cpRPrime_rot (R : Mat3) (p1 p2 p3 p4 p5 p6 : Vec3R) :
    cpRPrime (R.app p1) (R.app p2) (R.app p3) (R.app p4) (R.app p5) (R.app p6)
      = R.app (cpRPrime p1 p2 p3 p4 p5 p6) := by
  ext <;>
    simp only [cpRPrime, cpCentre, Mat3.app, Vec3R.dot, Vec3R.add, Vec3R.sub,
      Vec3R.smul] <;> ring

theorem cpR2Prime_rot (R : Mat3) (p1 p2 p3 p4 p5 p6 : Vec3R) :
    cpR2Prime (R.app p1) (R.app p2) (R.app p3) (R.app p4) (R.app p5) (R.app p6)
      = R.app (cpR2Prime p1 p2 p3 p4 p5 p6) := by
  ext <;>
    simp only [cpR2Prime, cpCentre, Mat3.app, Vec3R.dot, Vec3R.add, Vec3R.sub,
      Vec3R.smul] <;> ring

/-- The mean-plane normal of rotated coordinates is the rotated
normal. -/
theorem cpNormal_rot (R : Mat3) (h : IsRotation R) (p1 p2 p3 p4 p5 p6 : Vec3R) :
    cpNormal (R.app p1) (R.app p2) (R.app p3) (R.app p4) (R.app p5) (R.app p6)
      = R.app (cpNormal p1 p2 p3 p4 p5 p6) := by
  unfold cpNormal
  rw [cpRPrime_rot, cpR2Prime_rot, rot_cross R h]
  simp only [Vec3R.unitv]
  rw [rot_dot R h, Mat3.app_smul]

/-- Each projection zᵢ is invariant under a rigid rotation applied to
all the input coordinates. -/
theorem cpZ_rot (R : Mat3) (h : IsRotation R) (p1 p2 p3 p4 p5 p6 q : Vec3R) :
    cpZ (R.app p1) (R.app p2) (R.app p3) (R.app p4) (R.app p5) (R.app p6)
        (R.app q)
      = cpZ p1 p2 p3 p4 p5 p6 q := by
  unfold cpZ
  rw [cpCentre_rot, ← Mat3.app_sub, cpNormal_rot R h, rot_dot R h]

/-! ## Claim C9: rotation invariance of the squared amplitude -/

/-- Claim C9: for every valid 6-atom ring, the squared puckering
amplitude — the sum of the six squared projections onto the mean-plane
normal — is unchanged when a rigid rotation is applied to all input
coordinates before the centroid/translation step; the amplitude itself
is likewise unchanged. -/
theorem cremer_pople_amplitude_rotation_invariant
    (p1 p2 p3 p4 p5 p6 : Vec3R) (R : Mat3) (h : IsRotation R) :
    ((cpZ (R.app p1) (R.app p2) (R.app p3) (R.app p4) (R.app p5) (R.app p6)
        (R.app p1)) ^ 2
      + (cpZ (R.app p1) (R.app p2) (R.app p3) (R.app p4) (R.app p5) (R.app p6)
        (R.app p2)) ^ 2
      + (cpZ (R.app p1) (R.app p2) (R.app p3) (R.app p4) (R.app p5) (R.app p6)
        (R.app p3)) ^ 2
      + (cpZ (R.app p1) (R.app p2) (R.app p3) (R.app p4) (R.app p5) (R.app p6)
        (R.app p4)) ^ 2
      + (cpZ (R.app p1) (R.app p2) (R.app p3) (R.app p4) (R.app p5) (R.app p6)
        (R.app p5)) ^ 2
      + (cpZ (R.app p1) (R.app p2) (R.app p3) (R.app p4) (R.app p5) (R.app p6)
        (R.app p6)) ^ 2
      = (cpZ p1 p2 p3 p4 p5 p6 p1) ^ 2 + (cpZ p1 p2 p3 p4 p5 p6 p2) ^ 2
        + (cpZ p1 p2 p3 p4 p5 p6 p3) ^ 2 + (cpZ p1 p2 p3 p4 p5 p6 p4) ^ 2
        + (cpZ p1 p2 p3 p4 p5 p6 p5) ^ 2 + (cpZ p1 p2 p3 p4 p5 p6 p6) ^ 2)
    ∧ cpTotalPuckering (R.app p1) (R.app p2) (R.app p3) (R.app p4) (R.app p5)
        (R.app p6)
      = cpTotalPuckering p1 p2 p3 p4 p5 p6 := by
  have h1 := cpZ_rot R h p1 p2 p3 p4 p5 p6 p1
  have h2 := cpZ_rot R h p1 p2 p3 p4 p5 p6 p2
  have h3 := cpZ_rot R h p1 p2 p3 p4 p5 p6 p3
  have h4 := cpZ_rot R h p1 p2 p3 p4 p5 p6 p4
  have h5 := cpZ_rot R h p1 p2 p3 p4 p5 p6 p5
  have h6 := cpZ_rot R h p1 p2 p3 p4 p5 p6 p6
  constructor
  · rw [h1, h2, h3, h4, h5, h6]
  · unfold cpTotalPuckering
    rw [h1, h2, h3, h4, h5, h6]

/-- Claim C9 witness: the 90-degree rotation about the z axis is a
rigid rotation, and the squared amplitude of a concrete hexagonal ring
is invariant under it. -/
theorem cremer_pople_rotation_invariant_witness :
    ((cpZ (Mat3.app ⟨⟨0, -1, 0⟩, ⟨1, 0, 0⟩, ⟨0, 0, 1⟩⟩ ⟨1, 0, 0⟩)
        (Mat3.app ⟨⟨0, -1, 0⟩, ⟨1, 0, 0⟩, ⟨0, 0, 1⟩⟩ ⟨0, 1, 1⟩)
        (Mat3.app ⟨⟨0, -1, 0⟩, ⟨1, 0, 0⟩, ⟨0, 0, 1⟩⟩ ⟨-1, 1, 0⟩)
        (Mat3.app ⟨⟨0, -1, 0⟩, ⟨1, 0, 0⟩, ⟨0, 0, 1⟩⟩ ⟨-1, 0, 1⟩)
        (Mat3.app ⟨⟨0, -1, 0⟩, ⟨1, 0, 0⟩, ⟨0, 0, 1⟩⟩ ⟨0, -1, 0⟩)
        (Mat3.app ⟨⟨0, -1, 0⟩, ⟨1, 0, 0⟩, ⟨0, 0, 1⟩⟩ ⟨1, -1, 1⟩)
        (Mat3.app ⟨⟨0, -1, 0⟩, ⟨1, 0, 0⟩, ⟨0, 0, 1⟩⟩ ⟨1, 0, 0⟩)) ^ 2
      + (cpZ (Mat3.app ⟨⟨0, -1, 0⟩, ⟨1, 0, 0⟩, ⟨0, 0, 1⟩⟩ ⟨1, 0, 0⟩)
        (Mat3.app ⟨⟨0, -1, 0⟩, ⟨1, 0, 0⟩, ⟨0, 0, 1⟩⟩ ⟨0, 1, 1⟩)
        (Mat3.app ⟨⟨0, -1, 0⟩, ⟨1, 0, 0⟩, ⟨0, 0, 1⟩⟩ ⟨-1, 1, 0⟩)
        (Mat3.app ⟨⟨0, -1, 0⟩, ⟨1, 0, 0⟩, ⟨0, 0, 1⟩⟩ ⟨-1, 0, 1⟩)
        (Mat3.app ⟨⟨0, -1, 0⟩, ⟨1, 0, 0⟩, ⟨0, 0, 1⟩⟩ ⟨0, -1, 0⟩)
        (Mat3.app ⟨⟨0, -1, 0⟩, ⟨1, 0, 0⟩, ⟨0, 0, 1⟩⟩ ⟨1, -1, 1⟩)
        (Mat3.app ⟨⟨0, -1, 0⟩, ⟨1, 0, 0⟩, ⟨0, 0, 1⟩⟩ ⟨0, 1, 1⟩)) ^ 2
      + (cpZ (Mat3.app ⟨⟨0, -1, 0⟩, ⟨1, 0, 0⟩, ⟨0, 0, 1⟩⟩ ⟨1, 0, 0⟩)
        (Mat3.app ⟨⟨0, -1, 0⟩, ⟨1, 0, 0⟩, ⟨0, 0, 1⟩⟩ ⟨0, 1, 1⟩)
        (Mat3.app ⟨⟨0, -1, 0⟩, ⟨1, 0, 0⟩, ⟨0, 0, 1⟩⟩ ⟨-1, 1, 0⟩)
        (Mat3.app ⟨⟨0, -1, 0⟩, ⟨1, 0, 0⟩, ⟨0, 0, 1⟩⟩ ⟨-1, 0, 1⟩)
        (Mat3.app ⟨⟨0, -1, 0⟩, ⟨1, 0, 0⟩, ⟨0, 0, 1⟩⟩ ⟨0, -1, 0⟩)
        (Mat3.app ⟨⟨0, -1, 0⟩, ⟨1, 0, 0⟩, ⟨0, 0, 1⟩⟩ ⟨1, -1, 1⟩)
        (Mat3.app ⟨⟨0, -1, 0⟩, ⟨1, 0, 0⟩, ⟨0, 0, 1⟩⟩ ⟨-1, 1, 0⟩)) ^ 2
      + (cpZ (Mat3.app ⟨⟨0, -1, 0⟩, ⟨1, 0, 0⟩, ⟨0, 0, 1⟩⟩ ⟨1, 0, 0⟩)
        (Mat3.app ⟨⟨0, -1, 0⟩, ⟨1, 0, 0⟩, ⟨0, 0, 1⟩⟩ ⟨0, 1, 1⟩)
        (Mat3.app ⟨⟨0, -1, 0⟩, ⟨1, 0, 0⟩, ⟨0, 0, 1⟩⟩ ⟨-1, 1, 0⟩)
        (Mat3.app ⟨⟨0, -1, 0⟩, ⟨1, 0, 0⟩, ⟨0, 0, 1⟩⟩ ⟨-1, 0, 1⟩)
        (Mat3.app ⟨⟨0, -1, 0⟩, ⟨1, 0, 0⟩, ⟨0, 0, 1⟩⟩ ⟨0, -1, 0⟩)
        (Mat3.app ⟨⟨0, -1, 0⟩, ⟨1, 0, 0⟩, ⟨0, 0, 1⟩⟩ ⟨1, -1, 1⟩)
        (Mat3.app ⟨⟨0, -1, 0⟩, ⟨1, 0, 0⟩, ⟨0, 0, 1⟩⟩ ⟨-1, 0, 1⟩)) ^ 2
      + (cpZ (Mat3.app ⟨⟨0, -1, 0⟩, ⟨1, 0, 0⟩, ⟨0, 0, 1⟩⟩ ⟨1, 0, 0⟩)
        (Mat3.app ⟨⟨0, -1, 0⟩, ⟨1, 0, 0⟩, ⟨0, 0, 1⟩⟩ ⟨0, 1, 1⟩)
        (Mat3.app ⟨⟨0, -1, 0⟩, ⟨1, 0, 0⟩, ⟨0, 0, 1⟩⟩ ⟨-1, 1, 0⟩)
        (Mat3.app ⟨⟨0, -1, 0⟩, ⟨1, 0, 0⟩, ⟨0, 0, 1⟩⟩ ⟨-1, 0, 1⟩)
        (Mat3.app ⟨⟨0, -1, 0⟩, ⟨1, 0, 0⟩, ⟨0, 0, 1⟩⟩ ⟨0, -1, 0⟩)
        (Mat3.app ⟨⟨0, -1, 0⟩, ⟨1, 0, 0⟩, ⟨0, 0, 1⟩⟩ ⟨1, -1, 1⟩)
        (Mat3.app ⟨⟨0, -1, 0⟩, ⟨1, 0, 0⟩, ⟨0, 0, 1⟩⟩ ⟨0, -1, 0⟩)) ^ 2
      + (cpZ (Mat3.app ⟨⟨0, -1, 0⟩, ⟨1, 0, 0⟩, ⟨0, 0, 1⟩⟩ ⟨1, 0, 0⟩)
        (Mat3.app ⟨⟨0, -1, 0⟩, ⟨1, 0, 0⟩, ⟨0, 0, 1⟩⟩ ⟨0, 1, 1⟩)
        (Mat3.app ⟨⟨0, -1, 0⟩, ⟨1, 0, 0⟩, ⟨0, 0, 1⟩⟩ ⟨-1, 1, 0⟩)
        (Mat3.app ⟨⟨0, -1, 0⟩, ⟨1, 0, 0⟩, ⟨0, 0, 1⟩⟩ ⟨-1, 0, 1⟩)
        (Mat3.app ⟨⟨0, -1, 0⟩, ⟨1, 0, 0⟩, ⟨0, 0, 1⟩⟩ ⟨0, -1, 0⟩)
        (Mat3.app ⟨⟨0, -1, 0⟩, ⟨1, 0, 0⟩, ⟨0, 0, 1⟩⟩ ⟨1, -1, 1⟩)
        (Mat3.app ⟨⟨0, -1, 0⟩, ⟨1, 0, 0⟩, ⟨0, 0, 1⟩⟩ ⟨1, -1, 1⟩)) ^ 2
      = (cpZ ⟨1, 0, 0⟩ ⟨0, 1, 1⟩ ⟨-1, 1, 0⟩ ⟨-1, 0, 1⟩ ⟨0, -1, 0⟩ ⟨1, -1, 1⟩
          ⟨1, 0, 0⟩) ^ 2
        + (cpZ ⟨1, 0, 0⟩ ⟨0, 1, 1⟩ ⟨-1, 1, 0⟩ ⟨-1, 0, 1⟩ ⟨0, -1, 0⟩ ⟨1, -1, 1⟩
          ⟨0, 1, 1⟩) ^ 2
        + (cpZ ⟨1, 0, 0⟩ ⟨0, 1, 1⟩ ⟨-1, 1, 0⟩ ⟨-1, 0, 1⟩ ⟨0, -1, 0⟩ ⟨1, -1, 1⟩
          ⟨-1, 1, 0⟩) ^ 2
        + (cpZ ⟨1, 0, 0⟩ ⟨0, 1, 1⟩ ⟨-1, 1, 0⟩ ⟨-1, 0, 1⟩ ⟨0, -1, 0⟩ ⟨1, -1, 1⟩
          ⟨-1, 0, 1⟩) ^ 2
        + (cpZ ⟨1, 0, 0⟩ ⟨0, 1, 1⟩ ⟨-1, 1, 0⟩ ⟨-1, 0, 1⟩ ⟨0, -1, 0⟩ ⟨1, -1, 1⟩
          ⟨0, -1, 0⟩) ^ 2
        + (cpZ ⟨1, 0, 0⟩ ⟨0, 1, 1⟩ ⟨-1, 1, 0⟩ ⟨-1, 0, 1⟩ ⟨0, -1, 0⟩ ⟨1, -1, 1⟩
          ⟨1, -1, 1⟩) ^ 2) :=
  (cremer_pople_amplitude_rotation_invariant
    ⟨1, 0, 0⟩ ⟨0, 1, 1⟩ ⟨-1, 1, 0⟩ ⟨-1, 0, 1⟩ ⟨0, -1, 0⟩ ⟨1, -1, 1⟩
    ⟨⟨0, -1, 0⟩, ⟨1, 0, 0⟩, ⟨0, 0, 1⟩⟩
    (by norm_num [IsRotation, Vec3R.dot, Vec3R.cross])).1

end
